import Mathlib

/-!
# Color-space filters of PoDoFo (`src/podofo/main/PdfColorSpaceFilter.cpp`)

A shallow embedding of the color-space filter subsystem and the properties of it
that the specification states.

Conventions of the embedding

* `unsigned` is a 32-bit machine integer: a natural number below `2^32`, every
  arithmetic operation reduced modulo `2^32`.
* `int64_t` values are integers; the conversion `(unsigned)x` is `x mod 2^32`.
* A raw `unsigned char*` scanline is the memory seen from the pointer, a total
  function from offsets to bytes; a write is a function update.
* A C++ exception is an `Except.error`; a function that also has a side effect
  returns the final state next to the outcome, because the effects that happened
  before a `throw` stay.
* A `shared_ptr` is the address of the pointee together with the (immutable)
  pointee; an empty handle is `none`.
-/

namespace PoDoFo

/-! ## Machine integers -/

/-- Number of values of the C++ type `unsigned`. -/
def UINT_SIZE : Nat := 4294967296

/-- Addition of two `unsigned` values. -/
def uadd (a b : Nat) : Nat := (a + b) % UINT_SIZE

/-- Subtraction of two `unsigned` values (wraps below zero). -/
def usub (a b : Nat) : Nat := (a % UINT_SIZE + (UINT_SIZE - b % UINT_SIZE)) % UINT_SIZE

/-- Multiplication of two `unsigned` values. -/
def umul (a b : Nat) : Nat := (a * b) % UINT_SIZE

/-- The conversion `(unsigned)x` of an `int64_t`. -/
def toUnsigned (x : Int) : Nat := (x % 4294967296).toNat

/-! ## Enumerations, failures -/

/-- Modelled from the spec: the enumeration `PdfColorSpaceType`, whose declaration
is not part of the sources; the enumerators the translation unit names, and
`Other` for every remaining enumerator. -/
inductive PdfColorSpaceType where
  | Unknown
  | DeviceGray
  | DeviceRGB
  | DeviceCMYK
  | Indexed
  | Separation
  | Lab
  | Other (tag : Nat)
  deriving DecidableEq

/-- Modelled from the spec: the enumeration `PdfColorSpacePixelFormat`
(declaration not part of the sources). -/
inductive PdfColorSpacePixelFormat where
  | Grayscale
  | RGB
  | CMYK
  deriving DecidableEq

/-- The error codes that the translation unit raises. -/
inductive PdfErrorCode where
  | InvalidEnumValue
  | NotImplemented
  | UnsupportedFilter
  | CannotConvertColor
  deriving DecidableEq

/-- What a call can raise: `PdfError` is `PODOFO_RAISE_ERROR_INFO(code, info)`
(`PODOFO_RAISE_ERROR(code)` has the empty info); `Invariant` is a failed
`PODOFO_INVARIANT`; `NullDereference` is the use of an empty handle, for which
the source raises nothing (it is never reached from the factory). -/
inductive Failure where
  | PdfError (code : PdfErrorCode) (info : String)
  | Invariant
  | NullDereference
  deriving DecidableEq

/-- Severity of a log message. -/
inductive PdfLogSeverity where
  | Warning
  deriving DecidableEq

/-! ## The document object model (external collaborator) -/

/-- The byte buffer type `charbuff`. -/
abbrev charbuff := List UInt8

/-- Modelled from the spec: a PDF object as the typed accessors of the object
model see it (the class `PdfObject` is not part of the sources). The elements of
an array are the objects that `MustFindAt` returns, indirect references
resolved; a dictionary may carry a stream, given by its decoded bytes. -/
inductive PdfObject where
  | Null
  | Boolean (b : Bool)
  | Number (n : Int)
  | Real (x : Rat)
  | Str (s : String)
  | Name (s : String)
  | Reference (objectNumber generation : Nat)
  | Array (items : List PdfObject)
  | Dictionary (entries : List (String × PdfObject)) (stream : Option charbuff)

namespace PdfObject

/-- Modelled from the spec: `TryGetName`, the name of a name object. -/
def TryGetName : PdfObject → Option String
  | .Name s => some s
  | _ => none

/-- Modelled from the spec: `TryGetNumber(value)`. On an integer object it stores
the integer and returns true. On any other object it returns false, and the
caller finds `unset` in `value`: the sources do not show what is left there. -/
def TryGetNumber (unset : Int) : PdfObject → Bool × Int
  | .Number n => (true, n)
  | _ => (false, unset)

/-- Modelled from the spec: `GetStream()` followed by `GetCopy()`, the decoded
bytes of the stream of an object, `none` for an object without stream
(`GetStream` returns `nullptr`). -/
def GetStream : PdfObject → Option charbuff
  | .Dictionary _ stream => stream
  | _ => none

end PdfObject

/-- Modelled from the spec: `PoDoFo::TryConvertTo`, the resolution of a name to a
`PdfColorSpaceType` (not part of the sources): a name resolves to the type that
is spelled the same, any other name does not resolve. -/
def TryConvertTo (name : String) : Option PdfColorSpaceType :=
  if name = "DeviceGray" then some .DeviceGray
  else if name = "DeviceRGB" then some .DeviceRGB
  else if name = "DeviceCMYK" then some .DeviceCMYK
  else if name = "Indexed" then some .Indexed
  else if name = "Separation" then some .Separation
  else if name = "Lab" then some .Lab
  else none

/-- Modelled from the spec: a color value, a color-space tag with the component
values of that space (the class `PdfColor` is not part of the sources). -/
structure PdfColor where
  colorSpace : PdfColorSpaceType
  components : List Rat
  deriving DecidableEq

/-! ## The filter variants -/

/-- The classes derived from `PdfColorSpaceFilter`, with their members. The
member `m_BaseColorSpace` of the indexed filter is a shared handle: the address
`baseAddr` of the base filter and the base filter itself. -/
inductive PdfColorSpaceFilter where
  | DeviceGray
  | DeviceRGB
  | DeviceCMYK
  | Indexed (baseAddr : Nat) (m_BaseColorSpace : PdfColorSpaceFilter) (m_MapSize : Nat)
      (m_lookup : charbuff)
  | Unknown
  | Separation (m_Name : String) (m_AlternateColor : PdfColor)
  | Lab (m_WhitePoint m_BlackPoint m_Range : List Rat)
  deriving DecidableEq

/-- A non-empty `shared_ptr<PdfColorSpaceFilter>`. -/
structure SharedPtr where
  addr : Nat
  obj : PdfColorSpaceFilter
  deriving DecidableEq

/-- The handle type `PdfColorSpaceFilterPtr`; `none` is the empty handle. -/
abbrev PdfColorSpaceFilterPtr := Option SharedPtr

namespace PdfColorSpaceFilter

/-- The virtual `GetType` of the seven classes. -/
def GetType : PdfColorSpaceFilter → PdfColorSpaceType
  | .DeviceGray => .DeviceGray
  | .DeviceRGB => .DeviceRGB
  | .DeviceCMYK => .DeviceCMYK
  | .Indexed _ _ _ _ => .Indexed
  | .Unknown => .Unknown
  | .Separation _ _ => .Separation
  | .Lab _ _ _ => .Lab

/-- The virtual `IsRawEncoded`: the three device classes return true, the
separation and Lab classes raise, the remaining classes (indexed, unknown) have
no override and inherit `PdfColorSpaceFilter::IsRawEncoded`, which returns
false. -/
def IsRawEncoded : PdfColorSpaceFilter → Except Failure Bool
  | .DeviceGray => .ok true
  | .DeviceRGB => .ok true
  | .DeviceCMYK => .ok true
  | .Indexed _ _ _ _ => .ok false
  | .Unknown => .ok false
  | .Separation _ _ => .error (.PdfError .NotImplemented "")
  | .Lab _ _ _ => .error (.PdfError .NotImplemented "")

/-- The virtual `GetPixelFormat`; the indexed filter delegates to its base. -/
def GetPixelFormat : PdfColorSpaceFilter → Except Failure PdfColorSpacePixelFormat
  | .DeviceGray => .ok .Grayscale
  | .DeviceRGB => .ok .RGB
  | .DeviceCMYK => .ok .CMYK
  | .Indexed _ base _ _ => GetPixelFormat base
  | .Unknown =>
      .error (.PdfError .NotImplemented "Operation unsupported in unknown type color space")
  | .Separation _ _ => .error (.PdfError .NotImplemented "")
  | .Lab _ _ _ => .error (.PdfError .NotImplemented "")

end PdfColorSpaceFilter

/-! ## Scanline geometry and transcoding -/

/-- A raw scanline pointer: the bytes at the offsets from the pointer. -/
abbrev ScanLine := Nat → UInt8

/-- The call `std::memcpy(dst, src, count)`. -/
def memcpy (dst src : ScanLine) (count : Nat) : ScanLine :=
  fun j => if j < count then src j else dst j

namespace PdfColorSpaceDeviceGray

/-- `(width * bitsPerComponent + 8 - 1) / 8` on `unsigned`. -/
def GetSourceScanLineSize (width bitsPerComponent : Nat) : Nat :=
  usub (uadd (umul width bitsPerComponent) 8) 1 / 8

/-- `(width * bitsPerComponent + 8 - 1) / 8` on `unsigned`. -/
def GetScanLineSize (width bitsPerComponent : Nat) : Nat :=
  usub (uadd (umul width bitsPerComponent) 8) 1 / 8

/-- `std::memcpy(dstScanLine, srcScanLine, width * bitsPerComponent / 8)`. -/
def FetchScanLine (dstScanLine srcScanLine : ScanLine) (width bitsPerComponent : Nat) :
    ScanLine :=
  memcpy dstScanLine srcScanLine (umul width bitsPerComponent / 8)

end PdfColorSpaceDeviceGray

namespace PdfColorSpaceFilterDeviceRGB

/-- `(3 * width * bitsPerComponent + 8 - 1) / 8` on `unsigned`. -/
def GetSourceScanLineSize (width bitsPerComponent : Nat) : Nat :=
  usub (uadd (umul (umul 3 width) bitsPerComponent) 8) 1 / 8

/-- `(3 * width * bitsPerComponent + 8 - 1) / 8` on `unsigned`. -/
def GetScanLineSize (width bitsPerComponent : Nat) : Nat :=
  usub (uadd (umul (umul 3 width) bitsPerComponent) 8) 1 / 8

/-- `std::memcpy(dstScanLine, srcScanLine, 3 * width * bitsPerComponent / 8)`. -/
def FetchScanLine (dstScanLine srcScanLine : ScanLine) (width bitsPerComponent : Nat) :
    ScanLine :=
  memcpy dstScanLine srcScanLine (umul (umul 3 width) bitsPerComponent / 8)

end PdfColorSpaceFilterDeviceRGB

namespace PdfColorSpaceFilterDeviceCMYK

/-- `(4 * width * bitsPerComponent + 8 - 1) / 8` on `unsigned`. -/
def GetSourceScanLineSize (width bitsPerComponent : Nat) : Nat :=
  usub (uadd (umul (umul 4 width) bitsPerComponent) 8) 1 / 8

/-- `(4 * width * bitsPerComponent + 8 - 1) / 8` on `unsigned`. -/
def GetScanLineSize (width bitsPerComponent : Nat) : Nat :=
  usub (uadd (umul (umul 4 width) bitsPerComponent) 8) 1 / 8

/-- `std::memcpy(dstScanLine, srcScanLine, 4 * width * bitsPerComponent / 8)`. -/
def FetchScanLine (dstScanLine srcScanLine : ScanLine) (width bitsPerComponent : Nat) :
    ScanLine :=
  memcpy dstScanLine srcScanLine (umul (umul 4 width) bitsPerComponent / 8)

end PdfColorSpaceFilterDeviceCMYK

namespace PdfColorSpaceFilterIndexed

/-- `GetSourceScanLineSize` of the indexed filter: the width, whatever the bit
depth. -/
def GetSourceScanLineSize (width _bitsPerComponent : Nat) : Nat := width

/-- `GetScanLineSize` of the indexed filter whose base is `m_BaseColorSpace`. -/
def GetScanLineSize (m_BaseColorSpace : PdfColorSpaceFilter) (width bitsPerComponent : Nat) :
    Except Failure Nat :=
  match m_BaseColorSpace.GetPixelFormat with
  | .error e => .error e
  | .ok .RGB => .ok (usub (uadd (umul (umul 3 width) bitsPerComponent) 8) 1 / 8)
  | .ok _ =>
      .error (.PdfError .UnsupportedFilter "Unsupported base color space in /Indexed color space")

/-- The byte `mappedColor[k]`, where `mappedColor = m_lookup.data() + index * 3`.
A read at or past the end of the buffer is outside the semantics of the source;
the model reads 0 there. -/
def mappedColor (m_lookup : charbuff) (index k : Nat) : UInt8 :=
  m_lookup.getD (index * 3 + k) 0

/-- The loop `for (unsigned i = 0; i < width; i++)` of `FetchScanLine`, with
`remaining = width - i` iterations to go. It returns the outcome and the
destination scanline as the loop leaves it. -/
def FetchScanLineLoop (m_MapSize : Nat) (m_lookup : charbuff) (srcScanLine : ScanLine) :
    Nat → Nat → ScanLine → Except Failure Unit × ScanLine
  | 0, _, dstScanLine => (.ok (), dstScanLine)
  | remaining + 1, i, dstScanLine =>
      if (srcScanLine i).toNat < m_MapSize then
        let index := (srcScanLine i).toNat
        let dst0 := Function.update dstScanLine (umul i 3 + 0) (mappedColor m_lookup index 0)
        let dst1 := Function.update dst0 (umul i 3 + 1) (mappedColor m_lookup index 1)
        let dst2 := Function.update dst1 (umul i 3 + 2) (mappedColor m_lookup index 2)
        FetchScanLineLoop m_MapSize m_lookup srcScanLine remaining (i + 1) dst2
      else
        (.error .Invariant, dstScanLine)

/-- `FetchScanLine` of the indexed filter with members `m_BaseColorSpace`,
`m_MapSize`, `m_lookup`. -/
def FetchScanLine (m_BaseColorSpace : PdfColorSpaceFilter) (m_MapSize : Nat)
    (m_lookup : charbuff) (dstScanLine srcScanLine : ScanLine)
    (width bitsPerComponent : Nat) : Except Failure Unit × ScanLine :=
  match m_BaseColorSpace.GetType with
  | .DeviceRGB =>
      if bitsPerComponent = 8 then
        FetchScanLineLoop m_MapSize m_lookup srcScanLine width 0 dstScanLine
      else
        (.error (.PdfError .UnsupportedFilter "/BitsPerComponent != 8"), dstScanLine)
  | _ =>
      (.error (.PdfError .UnsupportedFilter
        "Unsupported base color space in /Indexed color space"), dstScanLine)

end PdfColorSpaceFilterIndexed

namespace PdfColorSpaceFilter

/-- The virtual `GetSourceScanLineSize`. -/
def GetSourceScanLineSize (self : PdfColorSpaceFilter) (width bitsPerComponent : Nat) :
    Except Failure Nat :=
  match self with
  | .DeviceGray => .ok (PdfColorSpaceDeviceGray.GetSourceScanLineSize width bitsPerComponent)
  | .DeviceRGB => .ok (PdfColorSpaceFilterDeviceRGB.GetSourceScanLineSize width bitsPerComponent)
  | .DeviceCMYK =>
      .ok (PdfColorSpaceFilterDeviceCMYK.GetSourceScanLineSize width bitsPerComponent)
  | .Indexed _ _ _ _ =>
      .ok (PdfColorSpaceFilterIndexed.GetSourceScanLineSize width bitsPerComponent)
  | .Unknown =>
      .error (.PdfError .NotImplemented "Operation unsupported in unknown type color space")
  | .Separation _ _ => .error (.PdfError .NotImplemented "")
  | .Lab _ _ _ => .error (.PdfError .NotImplemented "")

/-- The virtual `GetScanLineSize`. -/
def GetScanLineSize (self : PdfColorSpaceFilter) (width bitsPerComponent : Nat) :
    Except Failure Nat :=
  match self with
  | .DeviceGray => .ok (PdfColorSpaceDeviceGray.GetScanLineSize width bitsPerComponent)
  | .DeviceRGB => .ok (PdfColorSpaceFilterDeviceRGB.GetScanLineSize width bitsPerComponent)
  | .DeviceCMYK => .ok (PdfColorSpaceFilterDeviceCMYK.GetScanLineSize width bitsPerComponent)
  | .Indexed _ base _ _ => PdfColorSpaceFilterIndexed.GetScanLineSize base width bitsPerComponent
  | .Unknown =>
      .error (.PdfError .NotImplemented "Operation unsupported in unknown type color space")
  | .Separation _ _ => .error (.PdfError .NotImplemented "")
  | .Lab _ _ _ => .error (.PdfError .NotImplemented "")

/-- The virtual `GetColorComponentCount`. -/
def GetColorComponentCount : PdfColorSpaceFilter → Except Failure Nat
  | .DeviceGray => .ok 1
  | .DeviceRGB => .ok 3
  | .DeviceCMYK => .ok 4
  | .Indexed _ _ _ _ => .ok 1
  | .Unknown =>
      .error (.PdfError .NotImplemented "Operation unsupported in unknown type color space")
  | .Separation _ _ => .ok 1
  | .Lab _ _ _ => .ok 3

/-- The virtual `FetchScanLine`: the outcome and the destination scanline after
the call. -/
def FetchScanLine (self : PdfColorSpaceFilter) (dstScanLine srcScanLine : ScanLine)
    (width bitsPerComponent : Nat) : Except Failure Unit × ScanLine :=
  match self with
  | .DeviceGray =>
      (.ok (), PdfColorSpaceDeviceGray.FetchScanLine dstScanLine srcScanLine width
        bitsPerComponent)
  | .DeviceRGB =>
      (.ok (), PdfColorSpaceFilterDeviceRGB.FetchScanLine dstScanLine srcScanLine width
        bitsPerComponent)
  | .DeviceCMYK =>
      (.ok (), PdfColorSpaceFilterDeviceCMYK.FetchScanLine dstScanLine srcScanLine width
        bitsPerComponent)
  | .Indexed _ base mapSize lookup =>
      PdfColorSpaceFilterIndexed.FetchScanLine base mapSize lookup dstScanLine srcScanLine width
        bitsPerComponent
  | .Unknown =>
      (.error (.PdfError .NotImplemented "Operation unsupported in unknown type color space"),
        dstScanLine)
  | .Separation _ _ => (.error (.PdfError .NotImplemented ""), dstScanLine)
  | .Lab _ _ _ => (.error (.PdfError .NotImplemented ""), dstScanLine)

end PdfColorSpaceFilter

/-! ## The factory -/

/-- The process state that the factory reads and writes: the allocator (the next
free address), the four function-local statics (the address of the instance,
`none` before the first call), and the messages logged so far. -/
structure Runtime where
  nextAddr : Nat
  s_unknown : Option Nat
  s_deviceGray : Option Nat
  s_deviceRGB : Option Nat
  s_deviceCMYK : Option Nat
  log : List (PdfLogSeverity × String)
  deriving DecidableEq

/-- The expression `new T(...)`: a fresh address. -/
def Runtime.alloc (rt : Runtime) : Nat × Runtime :=
  (rt.nextAddr, { rt with nextAddr := rt.nextAddr + 1 })

/-- The call `PoDoFo::LogMessage(severity, msg)`. -/
def LogMessage (severity : PdfLogSeverity) (msg : String) (rt : Runtime) : Runtime :=
  { rt with log := rt.log ++ [(severity, msg)] }

namespace PdfColorSpaceFilterFactory

/-- `GetUnkownInstance`: the static `s_unknown` is constructed by the first call. -/
def GetUnkownInstance (rt : Runtime) : SharedPtr × Runtime :=
  match rt.s_unknown with
  | some a => (⟨a, .Unknown⟩, rt)
  | none => (⟨rt.alloc.1, .Unknown⟩, { rt.alloc.2 with s_unknown := some rt.alloc.1 })

/-- `GetDeviceGrayInstace`: the static `s_deviceGray` is constructed by the first
call. -/
def GetDeviceGrayInstace (rt : Runtime) : SharedPtr × Runtime :=
  match rt.s_deviceGray with
  | some a => (⟨a, .DeviceGray⟩, rt)
  | none => (⟨rt.alloc.1, .DeviceGray⟩, { rt.alloc.2 with s_deviceGray := some rt.alloc.1 })

/-- `GetDeviceRGBInstace`: the static `s_deviceRGB` is constructed by the first
call. -/
def GetDeviceRGBInstace (rt : Runtime) : SharedPtr × Runtime :=
  match rt.s_deviceRGB with
  | some a => (⟨a, .DeviceRGB⟩, rt)
  | none => (⟨rt.alloc.1, .DeviceRGB⟩, { rt.alloc.2 with s_deviceRGB := some rt.alloc.1 })

/-- `GetDeviceCMYKInstace`: the static `s_deviceCMYK` is constructed by the first
call. -/
def GetDeviceCMYKInstace (rt : Runtime) : SharedPtr × Runtime :=
  match rt.s_deviceCMYK with
  | some a => (⟨a, .DeviceCMYK⟩, rt)
  | none => (⟨rt.alloc.1, .DeviceCMYK⟩, { rt.alloc.2 with s_deviceCMYK := some rt.alloc.1 })

/-- `GetTrivialFilter(type)`. -/
def GetTrivialFilter (type : PdfColorSpaceType) (rt : Runtime) :
    Except Failure SharedPtr × Runtime :=
  match type with
  | .DeviceRGB => (.ok (GetDeviceRGBInstace rt).1, (GetDeviceRGBInstace rt).2)
  | .DeviceGray => (.ok (GetDeviceGrayInstace rt).1, (GetDeviceGrayInstace rt).2)
  | .DeviceCMYK => (.ok (GetDeviceCMYKInstace rt).1, (GetDeviceCMYKInstace rt).2)
  | _ => (.error (.PdfError .CannotConvertColor "Invalid color space"), rt)

/-- The label `InvalidIndexed` of `TryCreateFromObject`: a warning, `false`, the
output parameter as it was. -/
def InvalidIndexed (colorSpace : PdfColorSpaceFilterPtr) (rt : Runtime) :
    Except Failure (Bool × PdfColorSpaceFilterPtr) × Runtime :=
  (.ok (false, colorSpace), LogMessage .Warning "Invalid /Indexed color space name" rt)

/-- `TryCreateFromObject(obj, colorSpace)`. The argument `colorSpace` is the value
of the output parameter at the call; the result is the outcome (the returned
boolean and the output parameter after the call, or what was raised) and the
process state after the call. `unset` is the content of the local `maxIndex`
when `TryGetNumber` fails. -/
def TryCreateFromObject (unset : Int) :
    PdfObject → PdfColorSpaceFilterPtr → Runtime →
      Except Failure (Bool × PdfColorSpaceFilterPtr) × Runtime
  | .Array [], colorSpace, rt =>
      (.ok (false, colorSpace), LogMessage .Warning "Invalid color space" rt)
  | .Array (e0 :: rest), colorSpace, rt =>
      match e0.TryGetName with
      | none => (.ok (false, colorSpace), rt)
      | some name =>
        match TryConvertTo name with
        | none => (.ok (false, colorSpace), rt)
        | some .Indexed =>
          match rest with
          | e1 :: e2 :: e3 :: _ =>
            match TryCreateFromObject unset e1 none rt with
            | (.error e, rt1) => (.error e, rt1)
            | (.ok (false, _), rt1) => InvalidIndexed colorSpace rt1
            | (.ok (true, baseColorSpace), rt1) =>
              let maxIndex := (e2.TryGetNumber unset).2
              if !(e2.TryGetNumber unset).1 && maxIndex < 1 then
                InvalidIndexed colorSpace rt1
              else
                match e3.GetStream with
                | none => InvalidIndexed colorSpace rt1
                | some stream =>
                  match baseColorSpace with
                  | none => (.error .NullDereference, rt1)
                  | some base =>
                    match base.obj.GetPixelFormat with
                    | .error e => (.error e, rt1)
                    | .ok .RGB =>
                      let componentCount := 3
                      let lookup := stream
                      if lookup.length < umul componentCount (uadd (toUnsigned maxIndex) 1) then
                        InvalidIndexed colorSpace rt1
                      else
                        (.ok (true, some ⟨rt1.alloc.1, .Indexed base.addr base.obj
                          (uadd (toUnsigned maxIndex) 1) lookup⟩), rt1.alloc.2)
                    | .ok _ =>
                      (.error (.PdfError .UnsupportedFilter
                        "Unsupported base color space in /Indexed color space"), rt1)
          | _ => InvalidIndexed colorSpace rt
        | some _ =>
          (.ok (false, colorSpace),
            LogMessage .Warning ("Unsupported color space filter " ++ name) rt)
  | obj, colorSpace, rt =>
      match obj.TryGetName with
      | none => (.ok (false, colorSpace), rt)
      | some name =>
        match TryConvertTo name with
        | none => (.ok (false, colorSpace), rt)
        | some .DeviceGray => (.ok (true, some (GetDeviceGrayInstace rt).1), (GetDeviceGrayInstace rt).2)
        | some .DeviceRGB => (.ok (true, some (GetDeviceRGBInstace rt).1), (GetDeviceRGBInstace rt).2)
        | some .DeviceCMYK =>
          (.ok (true, some (GetDeviceCMYKInstace rt).1), (GetDeviceCMYKInstace rt).2)
        | some _ =>
          (.ok (false, colorSpace),
            LogMessage .Warning ("Unsupported color space filter " ++ name) rt)

end PdfColorSpaceFilterFactory

/-! ## Export to the document -/

namespace PdfColorSpaceFilter

/-- The virtual `IsTrivial`: the three device classes return true; no other class
overrides `PdfColorSpaceFilter::IsTrivial`, which returns false. -/
def IsTrivial : PdfColorSpaceFilter → Bool
  | .DeviceGray => true
  | .DeviceRGB => true
  | .DeviceCMYK => true
  | .Indexed _ _ _ _ => false
  | .Unknown => false
  | .Separation _ _ => false
  | .Lab _ _ _ => false

end PdfColorSpaceFilter

namespace PdfDictionary

/-- Modelled from the spec: `PdfDictionary::AddKey`, on the entries of a dictionary
in the order of their first insertion; an existing key gets the new value. -/
def AddKey (key : String) (value : PdfObject) :
    List (String × PdfObject) → List (String × PdfObject)
  | [] => [(key, value)]
  | (k, v) :: rest =>
      if k = key then (key, value) :: rest else (k, v) :: AddKey key value rest

/-- Modelled from the spec: the value stored under a key of a dictionary. -/
def FindKey (key : String) : List (String × PdfObject) → Option PdfObject
  | [] => none
  | (k, v) :: rest => if k = key then some v else FindKey key rest

end PdfDictionary

namespace PdfObject

/-- The call `obj.GetDictionary().AddKey(key, value)` on an object. -/
def AddKey (key : String) (value : PdfObject) : PdfObject → PdfObject
  | .Dictionary entries stream => .Dictionary (PdfDictionary.AddKey key value entries) stream
  | obj => obj

/-- The call `obj.GetOrCreateStream().SetData(data)` on an object: the bytes become
the content of its stream. -/
def SetData (data : charbuff) : PdfObject → PdfObject
  | .Dictionary entries _ => .Dictionary entries (some data)
  | obj => obj

/-- The entries of `obj.GetDictionary()`. -/
def GetDictionary : PdfObject → List (String × PdfObject)
  | .Dictionary entries _ => entries
  | _ => []

end PdfObject

/-- Modelled from the spec: the container `PdfIndirectObjectList` (not part of the
sources), the indirect objects in the order of their creation; the object at
position i has the object number i + 1 and the generation 0. -/
abbrev PdfIndirectObjectList := List PdfObject

namespace PdfIndirectObjectList

/-- The list in which the object at a position is replaced by its image. -/
def modifyObject (f : PdfObject → PdfObject) : Nat → List PdfObject → List PdfObject
  | _, [] => []
  | 0, obj :: rest => f obj :: rest
  | index + 1, obj :: rest => obj :: modifyObject f index rest

/-- An in-place change of the object with a given object number. -/
def updateObject (objectNumber : Nat) (f : PdfObject → PdfObject)
    (objects : PdfIndirectObjectList) : PdfIndirectObjectList :=
  match objectNumber with
  | 0 => objects
  | index + 1 => modifyObject f index objects

/-- Modelled from the spec: `CreateDictionaryObject`, a new empty dictionary object
at the end of the list; the result is its object number and the list. -/
def CreateDictionaryObject (objects : PdfIndirectObjectList) :
    Nat × PdfIndirectObjectList :=
  (objects.length + 1, objects ++ [.Dictionary [] none])

/-- The object with a given object number (`Null` when there is none). -/
def GetObject (objectNumber : Nat) (objects : PdfIndirectObjectList) : PdfObject :=
  match objectNumber with
  | 0 => .Null
  | index + 1 => objects.getD index .Null

end PdfIndirectObjectList

/-- Modelled from the spec: the constant `PdfNames::Filter` (not part of the
sources), the key of the content filter of a stream. -/
def PdfNames.Filter : String := "Filter"

namespace PdfColor

/-- Modelled from the spec: `GetColorSpace`, the color-space tag of a color. -/
def GetColorSpace (color : PdfColor) : PdfColorSpaceType := color.colorSpace

/-- Modelled from the spec: the component accessor of a gray color. -/
def GetGrayScale (color : PdfColor) : Rat := color.components.getD 0 0

/-- Modelled from the spec: first component accessor of an RGB color. -/
def GetRed (color : PdfColor) : Rat := color.components.getD 0 0

/-- Modelled from the spec: second component accessor of an RGB color. -/
def GetGreen (color : PdfColor) : Rat := color.components.getD 1 0

/-- Modelled from the spec: third component accessor of an RGB color. -/
def GetBlue (color : PdfColor) : Rat := color.components.getD 2 0

/-- Modelled from the spec: first component accessor of a CMYK color. -/
def GetCyan (color : PdfColor) : Rat := color.components.getD 0 0

/-- Modelled from the spec: second component accessor of a CMYK color. -/
def GetMagenta (color : PdfColor) : Rat := color.components.getD 1 0

/-- Modelled from the spec: third component accessor of a CMYK color. -/
def GetYellow (color : PdfColor) : Rat := color.components.getD 2 0

/-- Modelled from the spec: fourth component accessor of a CMYK color. -/
def GetBlack (color : PdfColor) : Rat := color.components.getD 3 0

/-- Modelled from the spec: the constructor `PdfColor(cyan, magenta, yellow, black)`. -/
def CMYK (cyan magenta yellow black : Rat) : PdfColor :=
  ⟨.DeviceCMYK, [cyan, magenta, yellow, black]⟩

end PdfColor

/-- The integer part of a `double`, rounded toward zero. -/
def truncate (x : Rat) : Int := if 0 ≤ x then ⌊x⌋ else ⌈x⌉

/-- The conversion `static_cast<char>(x)` of a `double`, as the byte it stores: the
integer part of `x`. A value whose integer part does not fit a `char` is outside
the semantics of the source; the model keeps its low 8 bits. -/
def doubleToChar (x : Rat) : UInt8 := UInt8.ofNat (truncate x % 256).toNat

namespace PdfColorSpaceFilterSeparation

/-- The constructor `PdfColorSpaceFilterSeparation(name, alternateColor)`: the new
filter, or what the constructor raises. -/
def PdfColorSpaceFilterSeparation (name : String) (alternateColor : PdfColor) :
    Except Failure PdfColorSpaceFilter :=
  match alternateColor.GetColorSpace with
  | .DeviceGray => .ok (.Separation name alternateColor)
  | .DeviceRGB => .ok (.Separation name alternateColor)
  | .DeviceCMYK => .ok (.Separation name alternateColor)
  | _ =>
      .error (.PdfError .CannotConvertColor
        "Unsupported color space for color space separation")

/-- `CreateSeparationNone`. -/
def CreateSeparationNone : Except Failure PdfColorSpaceFilter :=
  PdfColorSpaceFilterSeparation "None" (PdfColor.CMYK 0 0 0 0)

/-- `CreateSeparationAll`. -/
def CreateSeparationAll : Except Failure PdfColorSpaceFilter :=
  PdfColorSpaceFilterSeparation "All" (PdfColor.CMYK 1 1 1 1)

/-- The part of `GetExportObject` before the `switch`: the tint function object is
created and gets the keys that do not depend on the alternate space. The result is
the object number of `csTintFunc` and the list. -/
def createTintFunc (objects : PdfIndirectObjectList) : Nat × PdfIndirectObjectList :=
  let csTintFunc := (PdfIndirectObjectList.CreateDictionaryObject objects).1
  let objects0 := (PdfIndirectObjectList.CreateDictionaryObject objects).2
  let objects1 := PdfIndirectObjectList.updateObject csTintFunc
    (PdfObject.AddKey "BitsPerSample" (.Number 8)) objects0
  let decode := PdfObject.Array [.Number 0, .Number 1, .Number 0, .Number 1,
    .Number 0, .Number 1, .Number 0, .Number 1]
  let objects2 := PdfIndirectObjectList.updateObject csTintFunc
    (PdfObject.AddKey "Decode" decode) objects1
  let domain := PdfObject.Array [.Number 0, .Number 1]
  let objects3 := PdfIndirectObjectList.updateObject csTintFunc
    (PdfObject.AddKey "Domain" domain) objects2
  let encode := PdfObject.Array [.Number 0, .Number 1]
  let objects4 := PdfIndirectObjectList.updateObject csTintFunc
    (PdfObject.AddKey "Encode" encode) objects3
  let objects5 := PdfIndirectObjectList.updateObject csTintFunc
    (PdfObject.AddKey PdfNames.Filter (.Name "FlateDecode")) objects4
  let objects6 := PdfIndirectObjectList.updateObject csTintFunc
    (PdfObject.AddKey "FunctionType" (.Number 0)) objects5
  (csTintFunc, objects6)

/-- `GetExportObject` of the separation filter with members `m_Name` and
`m_AlternateColor`. `dmul` is the product of two `double` values (the exact
product rounded to a `double`). -/
def GetExportObject (dmul : Rat → Rat → Rat) (m_Name : String) (m_AlternateColor : PdfColor)
    (objects : PdfIndirectObjectList) : Except Failure PdfObject × PdfIndirectObjectList :=
  let csTintFunc := (createTintFunc objects).1
  let objects6 := (createTintFunc objects).2
  match m_AlternateColor.GetColorSpace with
  | .DeviceGray =>
      let data : charbuff := [0, doubleToChar m_AlternateColor.GetGrayScale]
      let range := PdfObject.Array [.Number 0, .Number 1]
      let objects7 := PdfIndirectObjectList.updateObject csTintFunc
        (PdfObject.AddKey "Range" range) objects6
      let size := PdfObject.Array [.Number 2]
      let objects8 := PdfIndirectObjectList.updateObject csTintFunc
        (PdfObject.AddKey "Size" size) objects7
      let objects9 := PdfIndirectObjectList.updateObject csTintFunc
        (PdfObject.SetData data) objects8
      (.ok (.Array [.Name "Separation", .Name m_Name, .Name "DeviceGray",
        .Reference csTintFunc 0]), objects9)
  | .DeviceRGB =>
      let data : charbuff := [0, 0, 0,
        doubleToChar (dmul m_AlternateColor.GetRed 255),
        doubleToChar (dmul m_AlternateColor.GetGreen 255),
        doubleToChar (dmul m_AlternateColor.GetBlue 255)]
      let range := PdfObject.Array [.Number 0, .Number 1, .Number 0, .Number 1,
        .Number 0, .Number 1]
      let objects7 := PdfIndirectObjectList.updateObject csTintFunc
        (PdfObject.AddKey "Range" range) objects6
      let size := PdfObject.Array [.Number 2]
      let objects8 := PdfIndirectObjectList.updateObject csTintFunc
        (PdfObject.AddKey "Size" size) objects7
      let objects9 := PdfIndirectObjectList.updateObject csTintFunc
        (PdfObject.SetData data) objects8
      (.ok (.Array [.Name "Separation", .Name m_Name, .Name "DeviceRGB",
        .Reference csTintFunc 0]), objects9)
  | .DeviceCMYK =>
      let data : charbuff := [0, 0, 0, 0,
        doubleToChar (dmul m_AlternateColor.GetCyan 255),
        doubleToChar (dmul m_AlternateColor.GetMagenta 255),
        doubleToChar (dmul m_AlternateColor.GetYellow 255),
        doubleToChar (dmul m_AlternateColor.GetBlack 255)]
      let range := PdfObject.Array [.Number 0, .Number 1, .Number 0, .Number 1,
        .Number 0, .Number 1, .Number 0, .Number 1]
      let objects7 := PdfIndirectObjectList.updateObject csTintFunc
        (PdfObject.AddKey "Range" range) objects6
      let size := PdfObject.Array [.Number 2]
      let objects8 := PdfIndirectObjectList.updateObject csTintFunc
        (PdfObject.AddKey "Size" size) objects7
      let csArr := PdfObject.Array [.Name "Separation", .Name m_Name, .Name "DeviceCMYK",
        .Reference csTintFunc 0]
      let objects9 := PdfIndirectObjectList.updateObject csTintFunc
        (PdfObject.SetData data) objects8
      (.ok csArr, objects9)
  | _ => (.error (.PdfError .InvalidEnumValue ""), objects6)

end PdfColorSpaceFilterSeparation

namespace PdfColorSpaceFilterLab

/-- The constructor `PdfColorSpaceFilterLab(whitePoint, blackPoint, range)`; an
absent black point is `[0, 0, 0]`, an absent range is `[-100, 100, -100, 100]`. -/
def PdfColorSpaceFilterLab (whitePoint : List Rat) (blackPoint range : Option (List Rat)) :
    PdfColorSpaceFilter :=
  .Lab whitePoint
    (match blackPoint with
      | none => [0, 0, 0]
      | some b => b)
    (match range with
      | none => [-100, 100, -100, 100]
      | some r => r)

/-- `GetExportObject` of the Lab filter with members `m_WhitePoint`, `m_BlackPoint`
and `m_Range`. -/
def GetExportObject (m_WhitePoint m_BlackPoint m_Range : List Rat)
    (objects : PdfIndirectObjectList) : Except Failure PdfObject × PdfIndirectObjectList :=
  let labDict := (PdfIndirectObjectList.CreateDictionaryObject objects).1
  let objects0 := (PdfIndirectObjectList.CreateDictionaryObject objects).2
  let objects1 := PdfIndirectObjectList.updateObject labDict
    (PdfObject.AddKey "WhitePoint" (.Array [.Real (m_WhitePoint.getD 0 0),
      .Real (m_WhitePoint.getD 1 0), .Real (m_WhitePoint.getD 2 0)])) objects0
  let objects2 :=
    if m_BlackPoint ≠ [0, 0, 0] then
      PdfIndirectObjectList.updateObject labDict
        (PdfObject.AddKey "BlackPoint" (.Array [.Real (m_BlackPoint.getD 0 0),
          .Real (m_BlackPoint.getD 1 0), .Real (m_BlackPoint.getD 2 0)])) objects1
    else objects1
  let objects3 :=
    if m_Range ≠ [-100, 100, -100, 100] then
      PdfIndirectObjectList.updateObject labDict
        (PdfObject.AddKey "Range" (.Array [.Real (m_Range.getD 0 0),
          .Real (m_Range.getD 1 0), .Real (m_Range.getD 2 0), .Real (m_Range.getD 3 0)]))
        objects2
    else objects2
  (.ok (.Array [.Name "Lab",
    .Dictionary (PdfIndirectObjectList.GetObject labDict objects3).GetDictionary none]),
    objects3)

end PdfColorSpaceFilterLab

namespace PdfColorSpaceFilter

/-- The virtual `GetExportObject(objects)`: the returned object, or what was
raised, and the object list after the call. `dmul` is the product of two `double`
values. -/
def GetExportObject (dmul : Rat → Rat → Rat) :
    PdfColorSpaceFilter → PdfIndirectObjectList →
      Except Failure PdfObject × PdfIndirectObjectList
  | .DeviceGray, objects => (.ok (.Name "DeviceGray"), objects)
  | .DeviceRGB, objects => (.ok (.Name "DeviceRGB"), objects)
  | .DeviceCMYK, objects => (.ok (.Name "DeviceCMYK"), objects)
  | .Indexed _ base mapSize lookup, objects =>
      let lookupObj := (PdfIndirectObjectList.CreateDictionaryObject objects).1
      let objects1 := PdfIndirectObjectList.updateObject lookupObj (PdfObject.SetData lookup)
        (PdfIndirectObjectList.CreateDictionaryObject objects).2
      match GetExportObject dmul base objects1 with
      | (.error e, objects2) => (.error e, objects2)
      | (.ok baseObj, objects2) =>
          (.ok (.Array [.Name "Indexed", baseObj, .Number (usub mapSize 1),
            .Reference lookupObj 0]), objects2)
  | .Unknown, objects =>
      (.error (.PdfError .NotImplemented "Operation unsupported in unknown type color space"),
        objects)
  | .Separation name alternateColor, objects =>
      PdfColorSpaceFilterSeparation.GetExportObject dmul name alternateColor objects
  | .Lab whitePoint blackPoint range, objects =>
      PdfColorSpaceFilterLab.GetExportObject whitePoint blackPoint range objects

end PdfColorSpaceFilter

end PoDoFo

/-! ## Properties -/

namespace PoDoFo

open PdfColorSpaceFilterIndexed PdfColorSpaceFilterFactory

/-- The pixel offset `i * 3` does not wrap below 1431655766. -/
theorem umul_three_of_lt (i : Nat) (h : i < 1431655766) : umul i 3 = 3 * i := by
  unfold umul UINT_SIZE
  omega

/-- A pixel offset computed on `unsigned` is below 2^32. -/
theorem umul_three_lt (i : Nat) : umul i 3 < 4294967296 := by
  unfold umul UINT_SIZE
  omega

/-- One iteration of the loop on an index that is in range. -/
theorem FetchScanLineLoop_succ (M : Nat) (lookup : charbuff) (src : ScanLine) (n i : Nat)
    (dst : ScanLine) (h : (src i).toNat < M) :
    FetchScanLineLoop M lookup src (n + 1) i dst =
      FetchScanLineLoop M lookup src n (i + 1)
        (Function.update (Function.update (Function.update dst (umul i 3 + 0)
          (mappedColor lookup (src i).toNat 0)) (umul i 3 + 1)
          (mappedColor lookup (src i).toNat 1)) (umul i 3 + 2)
          (mappedColor lookup (src i).toNat 2)) := by
  simp [FetchScanLineLoop, h]

/-- The loop succeeds when every index it reads is in range. -/
theorem FetchScanLineLoop_ok (M : Nat) (lookup : charbuff) (src : ScanLine) :
    ∀ (n i : Nat) (dst : ScanLine), (∀ j, i ≤ j → j < i + n → (src j).toNat < M) →
      (FetchScanLineLoop M lookup src n i dst).1 = .ok () := by
  intro n
  induction n with
  | zero => intro i dst _; rfl
  | succ n ih =>
    intro i dst h
    rw [FetchScanLineLoop_succ M lookup src n i dst (h i (le_refl i) (by omega))]
    exact ih (i + 1) _ (fun j h1 h2 => h j (by omega) (by omega))

/-- The loop raises the invariant failure when some index it reads is out of range. -/
theorem FetchScanLineLoop_error (M : Nat) (lookup : charbuff) (src : ScanLine) :
    ∀ (n i : Nat) (dst : ScanLine), (∃ j, i ≤ j ∧ j < i + n ∧ ¬ (src j).toNat < M) →
      (FetchScanLineLoop M lookup src n i dst).1 = .error .Invariant := by
  intro n
  induction n with
  | zero => intro i dst h; obtain ⟨j, h1, h2, _⟩ := h; omega
  | succ n ih =>
    intro i dst h
    by_cases hi : (src i).toNat < M
    · rw [FetchScanLineLoop_succ M lookup src n i dst hi]
      obtain ⟨j, h1, h2, h3⟩ := h
      have hne : j ≠ i := by
        intro hji
        rw [hji] at h3
        exact h3 hi
      exact ih (i + 1) _ ⟨j, by omega, by omega, h3⟩
    · simp [FetchScanLineLoop, hi]

/-- The destination scanline after a loop in which no pixel offset wraps. -/
theorem FetchScanLineLoop_dst (M : Nat) (lookup : charbuff) (src : ScanLine) :
    ∀ (n i : Nat) (dst : ScanLine), i + n ≤ 1431655766 →
      (∀ j, i ≤ j → j < i + n → (src j).toNat < M) →
      ∀ t, (FetchScanLineLoop M lookup src n i dst).2 t =
        if 3 * i ≤ t ∧ t < 3 * (i + n) then mappedColor lookup (src (t / 3)).toNat (t % 3)
        else dst t := by
  intro n
  induction n with
  | zero =>
    intro i dst _ _ t
    have : ¬ (3 * i ≤ t ∧ t < 3 * (i + 0)) := by omega
    rw [if_neg this]
    rfl
  | succ n ih =>
    intro i dst hn h t
    rw [FetchScanLineLoop_succ M lookup src n i dst (h i (le_refl i) (by omega))]
    rw [ih (i + 1) _ (by omega) (fun j h1 h2 => h j (by omega) (by omega)) t]
    rw [umul_three_of_lt i (by omega)]
    by_cases h1 : 3 * (i + 1) ≤ t ∧ t < 3 * (i + 1 + n)
    · have h2 : 3 * i ≤ t ∧ t < 3 * (i + (n + 1)) := by omega
      rw [if_pos h1, if_pos h2]
    · rw [if_neg h1]
      by_cases h2 : 3 * i ≤ t ∧ t < 3 * (i + (n + 1))
      · rw [if_pos h2]
        have hq : t / 3 = i := by omega
        have hcases : t = 3 * i + 0 ∨ t = 3 * i + 1 ∨ t = 3 * i + 2 := by omega
        rcases hcases with hc | hc | hc
        · subst hc
          have hm : (3 * i + 0) % 3 = 0 := by omega
          rw [hq, hm]
          simp [Function.update_apply]
        · subst hc
          have hm : (3 * i + 1) % 3 = 1 := by omega
          rw [hq, hm]
          simp [Function.update_apply]
        · subst hc
          have hm : (3 * i + 2) % 3 = 2 := by omega
          rw [hq, hm]
          simp [Function.update_apply]
      · rw [if_neg h2]
        have a0 : t ≠ 3 * i + 0 := by omega
        have a1 : t ≠ 3 * i + 1 := by omega
        have a2 : t ≠ 3 * i + 2 := by omega
        simp only [Function.update_apply]
        rw [if_neg a2, if_neg a1, if_neg a0]

/-- The loop writes no byte at an offset of 2^32 + 2 or more. -/
theorem FetchScanLineLoop_untouched (M : Nat) (lookup : charbuff) (src : ScanLine) :
    ∀ (n i : Nat) (dst : ScanLine) (t : Nat), 4294967298 ≤ t →
      (FetchScanLineLoop M lookup src n i dst).2 t = dst t := by
  intro n
  induction n with
  | zero => intro i dst t _; rfl
  | succ n ih =>
    intro i dst t ht
    by_cases hi : (src i).toNat < M
    · rw [FetchScanLineLoop_succ M lookup src n i dst hi, ih (i + 1) _ t ht]
      have hb := umul_three_lt i
      have a0 : t ≠ umul i 3 + 0 := by omega
      have a1 : t ≠ umul i 3 + 1 := by omega
      have a2 : t ≠ umul i 3 + 2 := by omega
      simp only [Function.update_apply]
      rw [if_neg a2, if_neg a1, if_neg a0]
    · simp [FetchScanLineLoop, hi]


/-- With base DeviceRGB and 8 bits per component `FetchScanLine` is the loop from pixel 0. -/
theorem FetchScanLine_indexed_rgb_eight (baseAddr M : Nat) (lookup : charbuff)
    (dst src : ScanLine) (width : Nat) :
    PdfColorSpaceFilter.FetchScanLine (.Indexed baseAddr .DeviceRGB M lookup) dst src width 8 =
      FetchScanLineLoop M lookup src width 0 dst := rfl

/-- Inside the buffer `mappedColor` is the byte of the lookup. -/
theorem mappedColor_eq_getElem (lookup : charbuff) (index k : Nat)
    (h : index * 3 + k < lookup.length) :
    lookup[3 * index + k]? = some (mappedColor lookup index k) := by
  unfold mappedColor
  have e : 3 * index + k = index * 3 + k := by omega
  rw [e, List.getD_eq_getElem?_getD, List.getElem?_eq_getElem h]
  rfl

/-- C2 (amended): on an Indexed filter with base DeviceRGB, MapSize M and a lookup of
at least 3*M bytes, for every width up to 1431655766 (every pixel offset 3*i below
2^32) and every source scanline whose first width bytes are below M, FetchScanLine
with bitsPerComponent 8 succeeds and leaves lookup[3*src[i]+k] in dst[3*i+k] for
every pixel i below width and k in 0, 1, 2. -/
theorem C2_FetchScanLine_copies_palette_entries (baseAddr M : Nat) (lookup : charbuff)
    (dst src : ScanLine) (width : Nat)
    (hlookup : 3 * M ≤ lookup.length) (hwidth : width ≤ 1431655766)
    (hsrc : ∀ i, i < width → (src i).toNat < M) :
    (PdfColorSpaceFilter.FetchScanLine (.Indexed baseAddr .DeviceRGB M lookup) dst src
        width 8).1 = .ok () ∧
      ∀ i k, i < width → k < 3 →
        lookup[3 * (src i).toNat + k]? =
          some ((PdfColorSpaceFilter.FetchScanLine (.Indexed baseAddr .DeviceRGB M lookup)
            dst src width 8).2 (3 * i + k)) := by
  rw [FetchScanLine_indexed_rgb_eight]
  have hall : ∀ j, 0 ≤ j → j < 0 + width → (src j).toNat < M :=
    fun j _ h => hsrc j (by omega)
  refine ⟨FetchScanLineLoop_ok M lookup src width 0 dst hall, ?_⟩
  intro i k hi hk
  rw [FetchScanLineLoop_dst M lookup src width 0 dst (by omega) hall (3 * i + k)]
  have hin : 3 * 0 ≤ 3 * i + k ∧ 3 * i + k < 3 * (0 + width) := by omega
  have hq : (3 * i + k) / 3 = i := by omega
  have hm : (3 * i + k) % 3 = k := by omega
  rw [if_pos hin, hq, hm]
  have hlt := hsrc i hi
  exact mappedColor_eq_getElem lookup (src i).toNat k (by omega)

/-- Witness of C2: a palette of two entries, a scanline of two pixels. -/
theorem C2_FetchScanLine_copies_palette_entries_witness :
    (3 * 2 ≤ ([1, 2, 3, 4, 5, 6] : charbuff).length ∧ 2 ≤ 1431655766 ∧
      ∀ i, i < 2 → ((fun j => if j = 0 then 1 else 0 : ScanLine) i).toNat < 2) ∧
    ((PdfColorSpaceFilter.FetchScanLine (.Indexed 0 .DeviceRGB 2 [1, 2, 3, 4, 5, 6])
        (fun _ => 0) (fun j => if j = 0 then 1 else 0) 2 8).1 = .ok () ∧
      ∀ i k, i < 2 → k < 3 →
        ([1, 2, 3, 4, 5, 6] : charbuff)[3 * ((fun j => if j = 0 then 1 else 0 : ScanLine)
            i).toNat + k]? =
          some ((PdfColorSpaceFilter.FetchScanLine (.Indexed 0 .DeviceRGB 2 [1, 2, 3, 4, 5, 6])
            (fun _ => 0) (fun j => if j = 0 then 1 else 0) 2 8).2 (3 * i + k))) :=
  ⟨⟨by decide, by decide, by decide⟩,
    C2_FetchScanLine_copies_palette_entries 0 2 [1, 2, 3, 4, 5, 6] (fun _ => 0)
      (fun j => if j = 0 then 1 else 0) 2 (by decide) (by decide) (by decide)⟩

/-- C2, as stated, fails for a wide scanline: with width 1431655767 the offset 3*i of
the last pixel i = 1431655766 wraps in unsigned arithmetic, so dst[3*i+0] keeps its
old byte 0 although lookup[3*src[i]+0] is 7; every hypothesis of the claim holds. -/
theorem C2_counterexample_pixel_offset_wraps :
    (3 * 1 ≤ ([7, 7, 7] : charbuff).length ∧
      (∀ i, i < 1431655767 → ((fun _ => 0 : ScanLine) i).toNat < 1) ∧
      1431655766 < 1431655767) ∧
    (PdfColorSpaceFilter.FetchScanLine (.Indexed 0 .DeviceRGB 1 [7, 7, 7])
        (fun _ => 0) (fun _ => 0) 1431655767 8).2 (3 * 1431655766 + 0) = 0 ∧
    ([7, 7, 7] : charbuff)[3 * ((fun _ => 0 : ScanLine) 1431655766).toNat + 0]? = some 7 := by
  refine ⟨⟨by decide, fun _ _ => (by decide : (0 : UInt8).toNat < 1), by decide⟩, ?_,
    by decide⟩
  rw [FetchScanLine_indexed_rgb_eight, FetchScanLineLoop_untouched 1 [7, 7, 7] (fun _ => 0) 1431655767 0 (fun _ => 0)
    (3 * 1431655766 + 0) (by decide)]

/-- C3: on an Indexed filter with base DeviceRGB and MapSize M, FetchScanLine with
bitsPerComponent 8 raises the invariant failure if and only if some source byte
src[i] with i below width is not below M: no index is clamped or wrapped. -/
theorem C3_FetchScanLine_invariant_iff_index_out_of_range (baseAddr M : Nat)
    (lookup : charbuff) (dst src : ScanLine) (width : Nat) :
    (PdfColorSpaceFilter.FetchScanLine (.Indexed baseAddr .DeviceRGB M lookup) dst src
        width 8).1 = .error .Invariant ↔
      ∃ i, i < width ∧ ¬ (src i).toNat < M := by
  rw [FetchScanLine_indexed_rgb_eight]
  constructor
  · intro herr
    by_contra hno
    have hall : ∀ j, 0 ≤ j → j < 0 + width → (src j).toNat < M := by
      intro j _ hj
      by_contra hj2
      exact hno ⟨j, by omega, hj2⟩
    rw [FetchScanLineLoop_ok M lookup src width 0 dst hall] at herr
    cases herr
  · rintro ⟨i, hi, hbad⟩
    exact FetchScanLineLoop_error M lookup src width 0 dst ⟨i, by omega, by omega, hbad⟩

/-- The ceiling of `x / 8` as a quotient of naturals. -/
theorem ceil_div_eight (x : Nat) : ⌈(x : ℚ) / 8⌉₊ = (x + 7) / 8 := by
  apply le_antisymm
  · rw [Nat.ceil_le, div_le_iff₀ (by norm_num)]
    have h : x ≤ (x + 7) / 8 * 8 := by omega
    exact_mod_cast h
  · have h := Nat.le_ceil ((x : ℚ) / 8)
    rw [div_le_iff₀ (by norm_num)] at h
    have h2 : x ≤ ⌈(x : ℚ) / 8⌉₊ * 8 := by exact_mod_cast h
    omega

/-- The size formula on `unsigned` when nothing wraps. -/
theorem scanLineSize_no_wrap (n width bpc : Nat) (h : n * width * bpc + 7 < 4294967296) :
    usub (uadd (umul (umul n width) bpc) 8) 1 / 8 = (n * width * bpc + 7) / 8 := by
  have hprod : umul (umul n width) bpc = n * width * bpc := by
    unfold umul UINT_SIZE
    rcases Nat.eq_zero_or_pos bpc with hb | hb
    · subst hb
      simp
    · have hle : n * width ≤ n * width * bpc := Nat.le_mul_of_pos_right _ hb
      have h1 : n * width % 4294967296 = n * width := Nat.mod_eq_of_lt (by omega)
      rw [h1]
      exact Nat.mod_eq_of_lt (by omega)
  rw [hprod]
  unfold usub uadd UINT_SIZE
  omega

/-- The formula of DeviceGray is the formula with one component. -/
theorem one_mul_width (width bpc : Nat) : umul width bpc = umul (umul 1 width) bpc := by
  unfold umul UINT_SIZE
  rw [Nat.one_mul, Nat.mod_mul_mod]

/-- C4 (amended): for each device space with component count n (DeviceGray 1,
DeviceRGB 3, DeviceCMYK 4), every width and bitsPerComponent with
n*width*bitsPerComponent + 7 below 2^32, GetScanLineSize and GetSourceScanLineSize
both return ceil(n*width*bitsPerComponent/8). -/
theorem C4_device_scanline_size_is_ceiling (f : PdfColorSpaceFilter) (n width bpc : Nat)
    (hdev : f = .DeviceGray ∨ f = .DeviceRGB ∨ f = .DeviceCMYK)
    (hn : f.GetColorComponentCount = .ok n)
    (hfit : n * width * bpc + 7 < 4294967296) :
    f.GetScanLineSize width bpc = .ok ⌈((n * width * bpc : ℕ) : ℚ) / 8⌉₊ ∧
      f.GetSourceScanLineSize width bpc = .ok ⌈((n * width * bpc : ℕ) : ℚ) / 8⌉₊ := by
  rw [ceil_div_eight]
  rcases hdev with h | h | h
  · subst h
    have h1 : n = 1 := by
      simp only [PdfColorSpaceFilter.GetColorComponentCount, Except.ok.injEq] at hn
      exact hn.symm
    subst h1
    have key := scanLineSize_no_wrap 1 width bpc hfit
    rw [← one_mul_width] at key
    exact ⟨congrArg Except.ok key, congrArg Except.ok key⟩
  · subst h
    have h1 : n = 3 := by
      simp only [PdfColorSpaceFilter.GetColorComponentCount, Except.ok.injEq] at hn
      exact hn.symm
    subst h1
    have key := scanLineSize_no_wrap 3 width bpc hfit
    exact ⟨congrArg Except.ok key, congrArg Except.ok key⟩
  · subst h
    have h1 : n = 4 := by
      simp only [PdfColorSpaceFilter.GetColorComponentCount, Except.ok.injEq] at hn
      exact hn.symm
    subst h1
    have key := scanLineSize_no_wrap 4 width bpc hfit
    exact ⟨congrArg Except.ok key, congrArg Except.ok key⟩

/-- Witness of C4: DeviceRGB, width 5, one bit per component: 15 bits, 2 bytes. -/
theorem C4_device_scanline_size_is_ceiling_witness :
    ((PdfColorSpaceFilter.DeviceRGB = .DeviceGray ∨
        PdfColorSpaceFilter.DeviceRGB = .DeviceRGB ∨
        PdfColorSpaceFilter.DeviceRGB = .DeviceCMYK) ∧
      PdfColorSpaceFilter.DeviceRGB.GetColorComponentCount = .ok 3 ∧
      3 * 5 * 1 + 7 < 4294967296) ∧
    (PdfColorSpaceFilter.DeviceRGB.GetScanLineSize 5 1 =
        .ok ⌈((3 * 5 * 1 : ℕ) : ℚ) / 8⌉₊ ∧
      PdfColorSpaceFilter.DeviceRGB.GetSourceScanLineSize 5 1 =
        .ok ⌈((3 * 5 * 1 : ℕ) : ℚ) / 8⌉₊) :=
  ⟨⟨Or.inr (Or.inl rfl), rfl, by decide⟩,
    C4_device_scanline_size_is_ceiling .DeviceRGB 3 5 1 (Or.inr (Or.inl rfl)) rfl (by decide)⟩

/-- C4, as stated, fails for a wide scanline: DeviceGray with width 2^29 and 8 bits
per component has width*bitsPerComponent = 2^32, which wraps to 0 on unsigned, so
both sizes are 0 and not ceil(1*2^29*8/8) = 2^29. -/
theorem C4_counterexample_product_wraps :
    (536870912 < 4294967296 ∧ (8 = 1 ∨ 8 = 2 ∨ 8 = 4 ∨ 8 = 8 ∨ 8 = 16) ∧
      PdfColorSpaceFilter.DeviceGray.GetColorComponentCount = .ok 1) ∧
    PdfColorSpaceFilter.DeviceGray.GetScanLineSize 536870912 8 = .ok 0 ∧
    PdfColorSpaceFilter.DeviceGray.GetSourceScanLineSize 536870912 8 = .ok 0 ∧
    ⌈((1 * 536870912 * 8 : ℕ) : ℚ) / 8⌉₊ = 536870912 := by
  refine ⟨⟨by decide, by decide, rfl⟩, rfl, rfl, ?_⟩
  rw [ceil_div_eight]

/-- The accessor of DeviceGray returns a DeviceGray instance. -/
theorem GetDeviceGrayInstace_obj (rt : Runtime) :
    (GetDeviceGrayInstace rt).1.obj = .DeviceGray := by
  unfold GetDeviceGrayInstace
  cases rt.s_deviceGray <;> rfl

/-- The accessor of DeviceRGB returns a DeviceRGB instance. -/
theorem GetDeviceRGBInstace_obj (rt : Runtime) :
    (GetDeviceRGBInstace rt).1.obj = .DeviceRGB := by
  unfold GetDeviceRGBInstace
  cases rt.s_deviceRGB <;> rfl

/-- The accessor of DeviceCMYK returns a DeviceCMYK instance. -/
theorem GetDeviceCMYKInstace_obj (rt : Runtime) :
    (GetDeviceCMYKInstace rt).1.obj = .DeviceCMYK := by
  unfold GetDeviceCMYKInstace
  cases rt.s_deviceCMYK <;> rfl

/-- The factory on the name /DeviceGray. -/
theorem TryCreateFromObject_DeviceGray (unset : Int) (colorSpace : PdfColorSpaceFilterPtr)
    (rt : Runtime) :
    TryCreateFromObject unset (.Name "DeviceGray") colorSpace rt =
      (.ok (true, some (GetDeviceGrayInstace rt).1), (GetDeviceGrayInstace rt).2) := rfl

/-- The factory on the name /DeviceRGB. -/
theorem TryCreateFromObject_DeviceRGB (unset : Int) (colorSpace : PdfColorSpaceFilterPtr)
    (rt : Runtime) :
    TryCreateFromObject unset (.Name "DeviceRGB") colorSpace rt =
      (.ok (true, some (GetDeviceRGBInstace rt).1), (GetDeviceRGBInstace rt).2) := rfl

/-- The factory on the name /DeviceCMYK. -/
theorem TryCreateFromObject_DeviceCMYK (unset : Int) (colorSpace : PdfColorSpaceFilterPtr)
    (rt : Runtime) :
    TryCreateFromObject unset (.Name "DeviceCMYK") colorSpace rt =
      (.ok (true, some (GetDeviceCMYKInstace rt).1), (GetDeviceCMYKInstace rt).2) := rfl

/-- The factory on an /Indexed array of at least four elements. -/
theorem TryCreateFromObject_Indexed (unset : Int) (e1 e2 e3 : PdfObject)
    (extra : List PdfObject) (colorSpace : PdfColorSpaceFilterPtr) (rt : Runtime) :
    TryCreateFromObject unset (.Array (.Name "Indexed" :: e1 :: e2 :: e3 :: extra)) colorSpace rt =
      match TryCreateFromObject unset e1 none rt with
      | (.error e, rt1) => (.error e, rt1)
      | (.ok (false, _), rt1) => InvalidIndexed colorSpace rt1
      | (.ok (true, baseColorSpace), rt1) =>
        if !(e2.TryGetNumber unset).1 && (e2.TryGetNumber unset).2 < 1 then
          InvalidIndexed colorSpace rt1
        else
          match e3.GetStream with
          | none => InvalidIndexed colorSpace rt1
          | some stream =>
            match baseColorSpace with
            | none => (.error .NullDereference, rt1)
            | some base =>
              match base.obj.GetPixelFormat with
              | .error e => (.error e, rt1)
              | .ok .RGB =>
                if stream.length < umul 3 (uadd (toUnsigned (e2.TryGetNumber unset).2) 1) then
                  InvalidIndexed colorSpace rt1
                else
                  (.ok (true, some ⟨rt1.alloc.1, .Indexed base.addr base.obj
                    (uadd (toUnsigned (e2.TryGetNumber unset).2) 1) stream⟩), rt1.alloc.2)
              | .ok _ =>
                (.error (.PdfError .UnsupportedFilter
                  "Unsupported base color space in /Indexed color space"), rt1) := rfl

/-- The factory on an /Indexed array over /DeviceRGB with an integer and a stream. -/
theorem TryCreateFromObject_Indexed_DeviceRGB (unset maxIndex : Int)
    (entries : List (String × PdfObject)) (bytes : charbuff)
    (extra : List PdfObject) (colorSpace : PdfColorSpaceFilterPtr) (rt : Runtime) :
    TryCreateFromObject unset (.Array (.Name "Indexed" :: .Name "DeviceRGB" :: .Number maxIndex ::
        .Dictionary entries (some bytes) :: extra)) colorSpace rt =
      if bytes.length < umul 3 (uadd (toUnsigned maxIndex) 1) then
        InvalidIndexed colorSpace (GetDeviceRGBInstace rt).2
      else
        (.ok (true, some ⟨(GetDeviceRGBInstace rt).2.nextAddr,
          .Indexed (GetDeviceRGBInstace rt).1.addr .DeviceRGB (uadd (toUnsigned maxIndex) 1)
            bytes⟩), (GetDeviceRGBInstace rt).2.alloc.2) := by
  rw [TryCreateFromObject_Indexed, TryCreateFromObject_DeviceRGB]
  simp only [PdfObject.TryGetNumber, PdfObject.GetStream, GetDeviceRGBInstace_obj,
    PdfColorSpaceFilter.GetPixelFormat]
  rfl


/-- Only the name /Indexed resolves to the type Indexed. -/
theorem TryConvertTo_Indexed (name : String) (h : TryConvertTo name = some .Indexed) :
    name = "Indexed" := by
  unfold TryConvertTo at h
  split_ifs at h
  all_goals first | assumption | cases h

/-- What a successful parse of an /Indexed array went through. -/
theorem TryCreateFromObject_Indexed_true (unset : Int) (e1 e2 e3 : PdfObject)
    (extra : List PdfObject) (colorSpace p : PdfColorSpaceFilterPtr) (rt rt' : Runtime)
    (h : TryCreateFromObject unset (.Array (.Name "Indexed" :: e1 :: e2 :: e3 :: extra))
      colorSpace rt = (.ok (true, p), rt')) :
    ∃ base rt1 stream,
      TryCreateFromObject unset e1 none rt = (.ok (true, some base), rt1) ∧
      ((e2.TryGetNumber unset).1 = true ∨ 1 ≤ (e2.TryGetNumber unset).2) ∧
      e3.GetStream = some stream ∧
      base.obj.GetPixelFormat = .ok .RGB ∧
      umul 3 (uadd (toUnsigned (e2.TryGetNumber unset).2) 1) ≤ stream.length ∧
      p = some ⟨rt1.nextAddr, .Indexed base.addr base.obj
        (uadd (toUnsigned (e2.TryGetNumber unset).2) 1) stream⟩ ∧
      rt' = rt1.alloc.2 := by
  rw [TryCreateFromObject_Indexed] at h
  split at h
  · simp at h
  · simp [InvalidIndexed] at h
  · rename_i baseColorSpace rt1 hrec
    split at h
    · simp [InvalidIndexed] at h
    · rename_i hnum
      split at h
      · simp [InvalidIndexed] at h
      · rename_i stream hstream
        split at h
        · simp at h
        · rename_i base
          split at h
          · simp at h
          · rename_i hfmt
            split at h
            · simp [InvalidIndexed] at h
            · rename_i hlen
              simp only [Prod.mk.injEq, Except.ok.injEq, true_and] at h
              refine ⟨base, rt1, stream, hrec, ?_, hstream, hfmt, by omega, h.1.symm, h.2.symm⟩
              by_cases hb : (e2.TryGetNumber unset).1 = true
              · exact Or.inl hb
              · right
                simp only [Bool.and_eq_true, Bool.not_eq_true', decide_eq_true_eq, not_and,
                  not_lt] at hnum
                exact hnum (by simpa using hb)
          · simp at h


/-- An array of fewer than four elements is never accepted. -/
theorem TryCreateFromObject_short_Array (unset : Int) (e0 : PdfObject) (rest : List PdfObject)
    (colorSpace p : PdfColorSpaceFilterPtr) (rt rt' : Runtime)
    (hshort : ∀ (e1 e2 e3 : PdfObject) (tail : List PdfObject), rest = e1 :: e2 :: e3 :: tail → False) :
    TryCreateFromObject unset (.Array (e0 :: rest)) colorSpace rt ≠ (.ok (true, p), rt') := by
  intro h
  rw [TryCreateFromObject.eq_3 unset colorSpace rt e0 rest hshort] at h
  split at h
  · simp at h
  · split at h
    · simp at h
    · simp [InvalidIndexed] at h
    · simp at h

/-- An accepted array is an /Indexed array of at least four elements. -/
theorem TryCreateFromObject_Array_true (unset : Int) (items : List PdfObject)
    (colorSpace p : PdfColorSpaceFilterPtr) (rt rt' : Runtime)
    (h : TryCreateFromObject unset (.Array items) colorSpace rt = (.ok (true, p), rt')) :
    ∃ e1 e2 e3 extra, items = .Name "Indexed" :: e1 :: e2 :: e3 :: extra := by
  rcases items with _ | ⟨e0, _ | ⟨e1, _ | ⟨e2, _ | ⟨e3, extra⟩⟩⟩⟩
  · simp [TryCreateFromObject] at h
  · exact absurd h (TryCreateFromObject_short_Array unset e0 [] colorSpace p rt rt' (by simp))
  · exact absurd h (TryCreateFromObject_short_Array unset e0 [e1] colorSpace p rt rt' (by simp))
  · exact absurd h (TryCreateFromObject_short_Array unset e0 [e1, e2] colorSpace p rt rt'
      (by simp))
  · refine ⟨e1, e2, e3, extra, ?_⟩
    rw [TryCreateFromObject.eq_2] at h
    cases e0 with
    | Name s =>
      simp only [PdfObject.TryGetName] at h
      split at h
      · simp at h
      · rename_i hconv
        rw [TryConvertTo_Indexed s hconv]
      · simp at h
    | _ => simp [PdfObject.TryGetName] at h

/-- An accepted object is an array or yields one of the three device instances. -/
theorem TryCreateFromObject_true (unset : Int) (obj : PdfObject)
    (colorSpace p : PdfColorSpaceFilterPtr) (rt rt' : Runtime)
    (h : TryCreateFromObject unset obj colorSpace rt = (.ok (true, p), rt')) :
    (∃ items, obj = .Array items) ∨
      (p = some (GetDeviceGrayInstace rt).1 ∨ p = some (GetDeviceRGBInstace rt).1 ∨
        p = some (GetDeviceCMYKInstace rt).1) := by
  cases obj with
  | Array items => exact Or.inl ⟨items, rfl⟩
  | Name s =>
    right
    simp only [TryCreateFromObject, PdfObject.TryGetName] at h
    split at h
    · simp at h
    · simp only [Prod.mk.injEq, Except.ok.injEq, true_and] at h
      exact Or.inl h.1.symm
    · simp only [Prod.mk.injEq, Except.ok.injEq, true_and] at h
      exact Or.inr (Or.inl h.1.symm)
    · simp only [Prod.mk.injEq, Except.ok.injEq, true_and] at h
      exact Or.inr (Or.inr h.1.symm)
    · simp at h
  | _ => simp [TryCreateFromObject, PdfObject.TryGetName] at h


/-- MapSize and the needed lookup length when nothing wraps. -/
theorem mapSize_no_wrap (maxIndex : Int) (h0 : 0 ≤ maxIndex)
    (hfit : 3 * (maxIndex + 1) < 4294967296) :
    uadd (toUnsigned maxIndex) 1 = (maxIndex + 1).toNat ∧
      umul 3 (uadd (toUnsigned maxIndex) 1) = 3 * (maxIndex + 1).toNat := by
  unfold umul uadd toUnsigned UINT_SIZE
  have hmod : maxIndex % 4294967296 = maxIndex := Int.emod_eq_of_lt h0 (by omega)
  rw [hmod]
  omega

/-- Where the needed length does not wrap: for every array
[/Indexed, /DeviceRGB, maxIndex, streamObj, ...] in which maxIndex is an integer with
0 <= maxIndex and 3*(maxIndex+1) < 2^32 and streamObj has a stream,
TryCreateFromObject returns true if and only if the stream has at least
3*(maxIndex+1) bytes; when it returns true the result is a new Indexed filter over
the DeviceRGB instance with MapSize = maxIndex+1 whose lookup is the stream's bytes;
when it returns false nothing is raised, the output parameter is unchanged and a
warning is logged. -/
theorem indexed_parse_iff_lookup_long_enough_of_no_wrap (unset maxIndex : Int)
    (entries : List (String × PdfObject)) (bytes : charbuff) (extra : List PdfObject)
    (colorSpace : PdfColorSpaceFilterPtr) (rt : Runtime)
    (h0 : 0 ≤ maxIndex) (hfit : 3 * (maxIndex + 1) < 4294967296) :
    ((∃ p, (TryCreateFromObject unset (.Array (.Name "Indexed" :: .Name "DeviceRGB" ::
          .Number maxIndex :: .Dictionary entries (some bytes) :: extra)) colorSpace rt).1 =
          .ok (true, p)) ↔ 3 * (maxIndex + 1) ≤ bytes.length) ∧
      (3 * (maxIndex + 1) ≤ bytes.length →
        TryCreateFromObject unset (.Array (.Name "Indexed" :: .Name "DeviceRGB" ::
          .Number maxIndex :: .Dictionary entries (some bytes) :: extra)) colorSpace rt =
          (.ok (true, some ⟨(GetDeviceRGBInstace rt).2.nextAddr,
            .Indexed (GetDeviceRGBInstace rt).1.addr .DeviceRGB (maxIndex + 1).toNat bytes⟩),
            (GetDeviceRGBInstace rt).2.alloc.2)) ∧
      ((bytes.length : Int) < 3 * (maxIndex + 1) →
        TryCreateFromObject unset (.Array (.Name "Indexed" :: .Name "DeviceRGB" ::
          .Number maxIndex :: .Dictionary entries (some bytes) :: extra)) colorSpace rt =
          (.ok (false, colorSpace),
            LogMessage .Warning "Invalid /Indexed color space name"
              (GetDeviceRGBInstace rt).2)) := by
  obtain ⟨hmap, hneed⟩ := mapSize_no_wrap maxIndex h0 hfit
  rw [TryCreateFromObject_Indexed_DeviceRGB, hneed, hmap]
  by_cases hlen : bytes.length < 3 * (maxIndex + 1).toNat
  · have hshort : (bytes.length : Int) < 3 * (maxIndex + 1) := by omega
    rw [if_pos hlen]
    refine ⟨⟨?_, fun hge => absurd hge (by omega)⟩, fun hge => absurd hge (by omega),
      fun _ => rfl⟩
    rintro ⟨p, hp⟩
    simp [InvalidIndexed] at hp
  · have hlong : 3 * (maxIndex + 1) ≤ (bytes.length : Int) := by omega
    rw [if_neg hlen]
    exact ⟨⟨fun _ => hlong, fun _ => ⟨_, rfl⟩⟩, fun _ => rfl, fun hlt => absurd hlt (by omega)⟩

/-- The array [/Indexed /DeviceRGB 1 s] with a stream of 6 bytes, in a fresh process
state, is in that range. -/
theorem indexed_parse_iff_lookup_long_enough_of_no_wrap_witness :
    ((0 : Int) ≤ 1 ∧ (3 : Int) * (1 + 1) < 4294967296) ∧
    (((∃ p, (TryCreateFromObject 0 (.Array (.Name "Indexed" :: .Name "DeviceRGB" ::
          .Number 1 :: .Dictionary [] (some [1, 2, 3, 4, 5, 6]) :: [])) none
          ⟨0, none, none, none, none, []⟩).1 = .ok (true, p)) ↔
        3 * ((1 : Int) + 1) ≤ ([1, 2, 3, 4, 5, 6] : charbuff).length) ∧
      (3 * ((1 : Int) + 1) ≤ ([1, 2, 3, 4, 5, 6] : charbuff).length →
        TryCreateFromObject 0 (.Array (.Name "Indexed" :: .Name "DeviceRGB" ::
          .Number 1 :: .Dictionary [] (some [1, 2, 3, 4, 5, 6]) :: [])) none
          ⟨0, none, none, none, none, []⟩ =
          (.ok (true, some ⟨(GetDeviceRGBInstace ⟨0, none, none, none, none, []⟩).2.nextAddr,
            .Indexed (GetDeviceRGBInstace ⟨0, none, none, none, none, []⟩).1.addr .DeviceRGB
              ((1 : Int) + 1).toNat [1, 2, 3, 4, 5, 6]⟩),
            (GetDeviceRGBInstace ⟨0, none, none, none, none, []⟩).2.alloc.2)) ∧
      ((([1, 2, 3, 4, 5, 6] : charbuff).length : Int) < 3 * (1 + 1) →
        TryCreateFromObject 0 (.Array (.Name "Indexed" :: .Name "DeviceRGB" ::
          .Number 1 :: .Dictionary [] (some [1, 2, 3, 4, 5, 6]) :: [])) none
          ⟨0, none, none, none, none, []⟩ =
          (.ok (false, none),
            LogMessage .Warning "Invalid /Indexed color space name"
              (GetDeviceRGBInstace ⟨0, none, none, none, none, []⟩).2))) :=
  ⟨⟨by decide, by decide⟩,
    indexed_parse_iff_lookup_long_enough_of_no_wrap 0 1 [] [1, 2, 3, 4, 5, 6] [] none
      ⟨0, none, none, none, none, []⟩ (by decide) (by decide)⟩

/-- C1 on the code: the array [/Indexed /DeviceRGB 1431655765 s] with a stream of 2
bytes is accepted: the needed length 3*(maxIndex+1) = 4294967298 of the length check
wraps to 2 on unsigned, so the check lets the stream through and the call returns
true with an Indexed filter of MapSize 1431655766 over 2 bytes. The claim says the
call returns false, 2 being less than 3*(maxIndex+1). -/
theorem C1_short_lookup_accepted_when_needed_length_wraps :
    (0 : Int) ≤ 1431655765 ∧
    TryCreateFromObject 0 (.Array [.Name "Indexed", .Name "DeviceRGB", .Number 1431655765,
        .Dictionary [] (some [1, 2])]) none ⟨0, none, none, none, none, []⟩ =
      (.ok (true, some ⟨1, .Indexed 0 .DeviceRGB 1431655766 [1, 2]⟩),
        ⟨2, none, none, some 0, none, []⟩) ∧
    ¬ (3 * ((1431655765 : Int) + 1) ≤ ([1, 2] : charbuff).length) :=
  ⟨by decide, rfl, by decide⟩


/-- C5 (amended): for every array of at least 4 elements whose element 0 is the name
/Indexed, whose element 1 parses to a filter with a pixel format other than RGB and
whose element 3 has a stream: when element 2 is an integer maxIndex, whatever its
value, or more generally when the test of element 2 lets the array through,
TryCreateFromObject raises UnsupportedFilter (it does not return false), whatever
the length of the stream is; when element 2 is no integer and what TryGetNumber
leaves in maxIndex is below 1, the call returns false with a warning and the output
parameter as it was. -/
theorem C5_indexed_non_rgb_base_raises (unset : Int) (e1 e2 e3 : PdfObject)
    (extra : List PdfObject) (colorSpace : PdfColorSpaceFilterPtr) (rt rt1 : Runtime)
    (base : SharedPtr) (fmt : PdfColorSpacePixelFormat) (bytes : charbuff)
    (hbase : TryCreateFromObject unset e1 none rt = (.ok (true, some base), rt1))
    (hfmt : base.obj.GetPixelFormat = .ok fmt) (hne : fmt ≠ .RGB)
    (hstream : e3.GetStream = some bytes) :
    (∀ maxIndex : Int, e2 = .Number maxIndex →
        TryCreateFromObject unset (.Array (.Name "Indexed" :: e1 :: e2 :: e3 :: extra))
            colorSpace rt =
          (.error (.PdfError .UnsupportedFilter
            "Unsupported base color space in /Indexed color space"), rt1)) ∧
      ((e2.TryGetNumber unset).1 = true ∨ 1 ≤ (e2.TryGetNumber unset).2 →
        TryCreateFromObject unset (.Array (.Name "Indexed" :: e1 :: e2 :: e3 :: extra))
            colorSpace rt =
          (.error (.PdfError .UnsupportedFilter
            "Unsupported base color space in /Indexed color space"), rt1)) ∧
      ((e2.TryGetNumber unset).1 = false → (e2.TryGetNumber unset).2 < 1 →
        TryCreateFromObject unset (.Array (.Name "Indexed" :: e1 :: e2 :: e3 :: extra))
            colorSpace rt =
          (.ok (false, colorSpace),
            LogMessage .Warning "Invalid /Indexed color space name" rt1)) := by
  have hpass : (e2.TryGetNumber unset).1 = true ∨ 1 ≤ (e2.TryGetNumber unset).2 →
      TryCreateFromObject unset (.Array (.Name "Indexed" :: e1 :: e2 :: e3 :: extra))
          colorSpace rt =
        (.error (.PdfError .UnsupportedFilter
          "Unsupported base color space in /Indexed color space"), rt1) := by
    intro hnum
    have hcond : (!(e2.TryGetNumber unset).1 && decide ((e2.TryGetNumber unset).2 < 1)) =
        false := by
      rcases hnum with h | h
      · rw [h]
        rfl
      · have hlt : ¬ (e2.TryGetNumber unset).2 < 1 := by omega
        simp [hlt]
    rw [TryCreateFromObject_Indexed, hbase]
    simp only [hcond, hstream, hfmt]
    cases fmt with
    | RGB => exact absurd rfl hne
    | Grayscale => rfl
    | CMYK => rfl
  refine ⟨fun maxIndex he2 => hpass (Or.inl (by rw [he2]; rfl)), hpass, ?_⟩
  intro hfalse hlt
  have hcond : (!(e2.TryGetNumber unset).1 && decide ((e2.TryGetNumber unset).2 < 1)) =
      true := by
    rw [hfalse]
    simp [hlt]
  rw [TryCreateFromObject_Indexed, hbase]
  simp only [hcond]
  rfl

/-- Witness of C5: the array [/Indexed /DeviceGray 255 stream] with a stream of 768
bytes, in a fresh process state. -/
theorem C5_indexed_non_rgb_base_raises_witness :
    (TryCreateFromObject 0 (.Name "DeviceGray") none ⟨0, none, none, none, none, []⟩ =
        (.ok (true, some ⟨0, .DeviceGray⟩), ⟨1, none, some 0, none, none, []⟩) ∧
      (SharedPtr.mk 0 .DeviceGray).obj.GetPixelFormat = .ok .Grayscale ∧
      PdfColorSpacePixelFormat.Grayscale ≠ .RGB ∧
      (PdfObject.Dictionary [] (some (List.replicate 768 0))).GetStream =
        some (List.replicate 768 0)) ∧
    TryCreateFromObject 0 (.Array (.Name "Indexed" :: .Name "DeviceGray" :: .Number 255 ::
        .Dictionary [] (some (List.replicate 768 0)) :: [])) none
        ⟨0, none, none, none, none, []⟩ =
      (.error (.PdfError .UnsupportedFilter
        "Unsupported base color space in /Indexed color space"),
        ⟨1, none, some 0, none, none, []⟩) :=
  ⟨⟨rfl, rfl, by decide, rfl⟩,
    (C5_indexed_non_rgb_base_raises 0 (.Name "DeviceGray") (.Number 255)
      (.Dictionary [] (some (List.replicate 768 0))) [] none
      ⟨0, none, none, none, none, []⟩ ⟨1, none, some 0, none, none, []⟩ ⟨0, .DeviceGray⟩
      .Grayscale (List.replicate 768 0) rfl rfl (by decide) rfl).1 255 rfl⟩

/-- C5, as stated, fails when element 2 is no integer: the array
[/Indexed /DeviceGray /None stream] has the name /Indexed at 0, a base of pixel format
Grayscale at 1 and a stream at 3, yet the test of element 2 comes before the test of
the pixel format: whenever the failed TryGetNumber leaves a value below 1 in maxIndex,
the call returns false with a warning and raises nothing. -/
theorem C5_counterexample_non_integer_element_fails_softly :
    (TryCreateFromObject 0 (.Name "DeviceGray") none ⟨0, none, none, none, none, []⟩ =
        (.ok (true, some ⟨0, .DeviceGray⟩), ⟨1, none, some 0, none, none, []⟩) ∧
      (SharedPtr.mk 0 .DeviceGray).obj.GetPixelFormat = .ok .Grayscale ∧
      PdfColorSpacePixelFormat.Grayscale ≠ .RGB ∧
      (PdfObject.Dictionary [] (some [1, 2, 3])).GetStream = some [1, 2, 3]) ∧
    TryCreateFromObject 0 (.Array [.Name "Indexed", .Name "DeviceGray", .Name "None",
        .Dictionary [] (some [1, 2, 3])]) none ⟨0, none, none, none, none, []⟩ =
      (.ok (false, none),
        ⟨1, none, some 0, none, none, [(.Warning, "Invalid /Indexed color space name")]⟩) ∧
    (∀ unset : Int, unset < 1 →
      (TryCreateFromObject unset (.Array [.Name "Indexed", .Name "DeviceGray", .Name "None",
        .Dictionary [] (some [1, 2, 3])]) none ⟨0, none, none, none, none, []⟩).1 =
        .ok (false, none)) := by
  refine ⟨⟨rfl, rfl, by decide, rfl⟩, rfl, ?_⟩
  intro unset hlt
  have hcond : (!((PdfObject.Name "None").TryGetNumber unset).1 &&
      decide (((PdfObject.Name "None").TryGetNumber unset).2 < 1)) = true := by
    simp [PdfObject.TryGetNumber, hlt]
  rw [TryCreateFromObject_Indexed, TryCreateFromObject_DeviceGray]
  simp only [hcond]
  rfl

/-- C6 on the code: the array [/Indexed /DeviceRGB -1 stream] with an empty stream is
accepted: the call returns true with an Indexed filter of MapSize 0, whatever the
local maxIndex held before. The claim says it returns false. -/
theorem C6_negative_maxIndex_accepted (unset : Int) :
    TryCreateFromObject unset (.Array [.Name "Indexed", .Name "DeviceRGB", .Number (-1),
        .Dictionary [] (some [])]) none ⟨0, none, none, none, none, []⟩ =
      (.ok (true, some ⟨1, .Indexed 0 .DeviceRGB 0 []⟩), ⟨2, none, none, some 0, none, []⟩) := by
  have hmap : uadd (toUnsigned (-1)) 1 = 0 := by decide
  rw [TryCreateFromObject_Indexed_DeviceRGB, hmap]
  rfl

/-- Where nothing wraps the invariant holds: every Indexed filter that
TryCreateFromObject returns from an array whose element 2 is an integer maxIndex with
0 <= maxIndex and 3*(maxIndex+1) < 2^32 has MapSize = maxIndex+1 >= 1 and a lookup
of at least MapSize*3 bytes. -/
theorem indexed_result_invariant_of_no_wrap (unset maxIndex : Int) (e0 e1 e3 : PdfObject)
    (extra : List PdfObject) (colorSpace : PdfColorSpaceFilterPtr) (rt rt' : Runtime)
    (p : SharedPtr)
    (h0 : 0 ≤ maxIndex) (hfit : 3 * (maxIndex + 1) < 4294967296)
    (h : TryCreateFromObject unset (.Array (e0 :: e1 :: .Number maxIndex :: e3 :: extra))
      colorSpace rt = (.ok (true, some p), rt')) :
    ∃ baseAddr base mapSize lookup, p.obj = .Indexed baseAddr base mapSize lookup ∧
      (mapSize : Int) = maxIndex + 1 ∧ 1 ≤ mapSize ∧ mapSize * 3 ≤ lookup.length := by
  obtain ⟨f1, f2, f3, fextra, hshape⟩ := TryCreateFromObject_Array_true unset _ _ _ _ _ h
  simp only [List.cons.injEq] at hshape
  obtain ⟨he0, he1, he2, he3, hextra⟩ := hshape
  subst he0 he1 he2 he3 hextra
  obtain ⟨base, rt1, stream, _, _, _, _, hlen, hp, _⟩ :=
    TryCreateFromObject_Indexed_true unset _ _ _ _ _ _ _ _ h
  simp only [PdfObject.TryGetNumber] at hlen hp
  obtain ⟨hmap, hneed⟩ := mapSize_no_wrap maxIndex h0 hfit
  rw [hneed] at hlen
  rw [hmap] at hp
  simp only [Option.some.injEq] at hp
  subst hp
  exact ⟨base.addr, base.obj, (maxIndex + 1).toNat, stream, rfl, by omega, by omega, by omega⟩

/-- The array [/Indexed /DeviceRGB 0 stream] with a stream of 3 bytes is in that
range. -/
theorem indexed_result_invariant_of_no_wrap_witness :
    ((0 : Int) ≤ 0 ∧ (3 : Int) * (0 + 1) < 4294967296 ∧
      TryCreateFromObject 0 (.Array (.Name "Indexed" :: .Name "DeviceRGB" :: .Number 0 ::
        .Dictionary [] (some [9, 8, 7]) :: [])) none ⟨0, none, none, none, none, []⟩ =
        (.ok (true, some ⟨1, .Indexed 0 .DeviceRGB 1 [9, 8, 7]⟩),
          ⟨2, none, none, some 0, none, []⟩)) ∧
    ∃ baseAddr base mapSize lookup,
      (SharedPtr.mk 1 (.Indexed 0 .DeviceRGB 1 [9, 8, 7])).obj =
        .Indexed baseAddr base mapSize lookup ∧
      (mapSize : Int) = 0 + 1 ∧ 1 ≤ mapSize ∧ mapSize * 3 ≤ lookup.length :=
  ⟨⟨by decide, by decide, rfl⟩,
    indexed_result_invariant_of_no_wrap 0 0 (.Name "Indexed") (.Name "DeviceRGB")
      (.Dictionary [] (some [9, 8, 7])) [] none ⟨0, none, none, none, none, []⟩
      ⟨2, none, none, some 0, none, []⟩ ⟨1, .Indexed 0 .DeviceRGB 1 [9, 8, 7]⟩
      (by decide) (by decide) rfl⟩

/-- C7 on the code: the array [/Indexed /DeviceRGB 4294967295 s] with an empty stream
is accepted: (unsigned)maxIndex + 1 wraps to 0, the needed length of the length check
is 0, and the call returns true with an Indexed filter of MapSize 0, which is not at
least 1; the array [/Indexed /DeviceRGB 1431655766 s] with a stream of 5 bytes is
accepted as well, the needed length 3*1431655767 wrapping to 5, and the filter
returned has a lookup of 5 bytes, fewer than MapSize*3. The claim says that every
filter returned has MapSize >= 1 and length(lookup) >= MapSize*3. -/
theorem C7_invariant_broken_when_length_check_wraps :
    (TryCreateFromObject 0 (.Array [.Name "Indexed", .Name "DeviceRGB", .Number 4294967295,
        .Dictionary [] (some [])]) none ⟨0, none, none, none, none, []⟩ =
      (.ok (true, some ⟨1, .Indexed 0 .DeviceRGB 0 []⟩), ⟨2, none, none, some 0, none, []⟩) ∧
      ¬ (1 ≤ 0)) ∧
    (TryCreateFromObject 0 (.Array [.Name "Indexed", .Name "DeviceRGB", .Number 1431655766,
        .Dictionary [] (some [1, 2, 3, 4, 5])]) none ⟨0, none, none, none, none, []⟩ =
      (.ok (true, some ⟨1, .Indexed 0 .DeviceRGB 1431655767 [1, 2, 3, 4, 5]⟩),
        ⟨2, none, none, some 0, none, []⟩) ∧
      ¬ (1431655767 * 3 ≤ ([1, 2, 3, 4, 5] : charbuff).length)) :=
  ⟨⟨rfl, by decide⟩, rfl, by decide⟩


/-- C8 (amended): the base color space of every Indexed filter that
TryCreateFromObject returns has pixel format RGB; it is either DeviceRGB, a raw
device space, or itself an Indexed filter, which is not raw encoded. -/
theorem C8_indexed_base_is_rgb_format (unset : Int) (obj : PdfObject)
    (colorSpace : PdfColorSpaceFilterPtr) (rt rt' : Runtime) (p : SharedPtr)
    (baseAddr mapSize : Nat) (base : PdfColorSpaceFilter) (lookup : charbuff)
    (h : TryCreateFromObject unset obj colorSpace rt = (.ok (true, some p), rt'))
    (hp : p.obj = .Indexed baseAddr base mapSize lookup) :
    base.GetPixelFormat = .ok .RGB ∧
      ((base = .DeviceRGB ∧ base.IsRawEncoded = .ok true) ∨
        (base.GetType = .Indexed ∧ base.IsRawEncoded = .ok false)) := by
  rcases TryCreateFromObject_true unset obj colorSpace (some p) rt rt' h with
    ⟨items, hobj⟩ | hdev | hdev | hdev
  · subst hobj
    obtain ⟨e1, e2, e3, extra, hshape⟩ := TryCreateFromObject_Array_true unset _ _ _ _ _ h
    subst hshape
    obtain ⟨b, rt1, stream, hrec, _, _, hfmt, _, hres, _⟩ :=
      TryCreateFromObject_Indexed_true unset _ _ _ _ _ _ _ _ h
    simp only [Option.some.injEq] at hres
    subst hres
    simp only [PdfColorSpaceFilter.Indexed.injEq] at hp
    obtain ⟨_, hb, _, _⟩ := hp
    subst hb
    refine ⟨hfmt, ?_⟩
    rcases TryCreateFromObject_true unset e1 none (some b) rt rt1 hrec with
      ⟨items1, hobj1⟩ | hd | hd | hd
    · subst hobj1
      obtain ⟨f1, f2, f3, fextra, hshape1⟩ :=
        TryCreateFromObject_Array_true unset _ _ _ _ _ hrec
      subst hshape1
      obtain ⟨b1, rt2, stream1, _, _, _, _, _, hres1, _⟩ :=
        TryCreateFromObject_Indexed_true unset _ _ _ _ _ _ _ _ hrec
      simp only [Option.some.injEq] at hres1
      subst hres1
      exact Or.inr ⟨rfl, rfl⟩
    · simp only [Option.some.injEq] at hd
      rw [hd, GetDeviceGrayInstace_obj] at hfmt
      simp [PdfColorSpaceFilter.GetPixelFormat] at hfmt
    · simp only [Option.some.injEq] at hd
      rw [hd, GetDeviceRGBInstace_obj]
      exact Or.inl ⟨rfl, rfl⟩
    · simp only [Option.some.injEq] at hd
      rw [hd, GetDeviceCMYKInstace_obj] at hfmt
      simp [PdfColorSpaceFilter.GetPixelFormat] at hfmt
  · simp only [Option.some.injEq] at hdev
    rw [hdev, GetDeviceGrayInstace_obj] at hp
    cases hp
  · simp only [Option.some.injEq] at hdev
    rw [hdev, GetDeviceRGBInstace_obj] at hp
    cases hp
  · simp only [Option.some.injEq] at hdev
    rw [hdev, GetDeviceCMYKInstace_obj] at hp
    cases hp

/-- Witness of C8: the array [/Indexed /DeviceRGB 0 stream] with a stream of 3 bytes;
the base of the filter it yields is DeviceRGB. -/
theorem C8_indexed_base_is_rgb_format_witness :
    (TryCreateFromObject 0 (.Array [.Name "Indexed", .Name "DeviceRGB", .Number 0,
        .Dictionary [] (some [9, 8, 7])]) none ⟨0, none, none, none, none, []⟩ =
        (.ok (true, some ⟨1, .Indexed 0 .DeviceRGB 1 [9, 8, 7]⟩),
          ⟨2, none, none, some 0, none, []⟩) ∧
      (SharedPtr.mk 1 (.Indexed 0 .DeviceRGB 1 [9, 8, 7])).obj =
        .Indexed 0 .DeviceRGB 1 [9, 8, 7]) ∧
    (PdfColorSpaceFilter.DeviceRGB.GetPixelFormat = .ok .RGB ∧
      ((PdfColorSpaceFilter.DeviceRGB = .DeviceRGB ∧
          PdfColorSpaceFilter.DeviceRGB.IsRawEncoded = .ok true) ∨
        (PdfColorSpaceFilter.DeviceRGB.GetType = .Indexed ∧
          PdfColorSpaceFilter.DeviceRGB.IsRawEncoded = .ok false))) :=
  ⟨⟨rfl, rfl⟩,
    C8_indexed_base_is_rgb_format 0 (.Array [.Name "Indexed", .Name "DeviceRGB", .Number 0,
      .Dictionary [] (some [9, 8, 7])]) none ⟨0, none, none, none, none, []⟩
      ⟨2, none, none, some 0, none, []⟩ ⟨1, .Indexed 0 .DeviceRGB 1 [9, 8, 7]⟩ 0 1 .DeviceRGB
      [9, 8, 7] rfl rfl⟩

/-- C8, as stated, fails for a nested array: [/Indexed [/Indexed /DeviceRGB 0 s] 0 s']
is accepted, and the base of the filter it yields is an Indexed filter: its type is
none of DeviceGray, DeviceRGB, DeviceCMYK and IsRawEncoded is false on it. -/
theorem C8_counterexample_nested_indexed_base :
    TryCreateFromObject 0 (.Array [.Name "Indexed",
        .Array [.Name "Indexed", .Name "DeviceRGB", .Number 0, .Dictionary [] (some [1, 2, 3])],
        .Number 0, .Dictionary [] (some [4, 5, 6])]) none ⟨0, none, none, none, none, []⟩ =
      (.ok (true, some ⟨2, .Indexed 1 (.Indexed 0 .DeviceRGB 1 [1, 2, 3]) 1 [4, 5, 6]⟩),
        ⟨3, none, none, some 0, none, []⟩) ∧
    (PdfColorSpaceFilter.Indexed 0 .DeviceRGB 1 [1, 2, 3]).IsRawEncoded = .ok false ∧
    (PdfColorSpaceFilter.Indexed 0 .DeviceRGB 1 [1, 2, 3]).GetType = .Indexed ∧
    ¬ ((PdfColorSpaceFilter.Indexed 0 .DeviceRGB 1 [1, 2, 3]).GetType = .DeviceGray ∨
      (PdfColorSpaceFilter.Indexed 0 .DeviceRGB 1 [1, 2, 3]).GetType = .DeviceRGB ∨
      (PdfColorSpaceFilter.Indexed 0 .DeviceRGB 1 [1, 2, 3]).GetType = .DeviceCMYK) :=
  ⟨rfl, rfl, rfl, by decide⟩

/-- A second call of the DeviceGray accessor returns the same instance and state. -/
theorem GetDeviceGrayInstace_stable (rt : Runtime) :
    GetDeviceGrayInstace (GetDeviceGrayInstace rt).2 =
      ((GetDeviceGrayInstace rt).1, (GetDeviceGrayInstace rt).2) := by
  unfold GetDeviceGrayInstace
  cases h : rt.s_deviceGray <;> simp [h, Runtime.alloc]

/-- A second call of the DeviceRGB accessor returns the same instance and state. -/
theorem GetDeviceRGBInstace_stable (rt : Runtime) :
    GetDeviceRGBInstace (GetDeviceRGBInstace rt).2 =
      ((GetDeviceRGBInstace rt).1, (GetDeviceRGBInstace rt).2) := by
  unfold GetDeviceRGBInstace
  cases h : rt.s_deviceRGB <;> simp [h, Runtime.alloc]

/-- A second call of the DeviceCMYK accessor returns the same instance and state. -/
theorem GetDeviceCMYKInstace_stable (rt : Runtime) :
    GetDeviceCMYKInstace (GetDeviceCMYKInstace rt).2 =
      ((GetDeviceCMYKInstace rt).1, (GetDeviceCMYKInstace rt).2) := by
  unfold GetDeviceCMYKInstace
  cases h : rt.s_deviceCMYK <;> simp [h, Runtime.alloc]

/-- C10: for every color space type t, GetTrivialFilter(t) returns the singleton of
the accessor of t, whose GetType is t, when t is DeviceGray, DeviceRGB or DeviceCMYK,
and for every other t (Indexed, Separation, Lab, Unknown, any remaining enumerator)
it raises CannotConvertColor and leaves the process state as it is. -/
theorem C10_GetTrivialFilter_singleton_or_raises (t : PdfColorSpaceType) (rt : Runtime) :
    (t = .DeviceGray ∧
        GetTrivialFilter t rt = (.ok (GetDeviceGrayInstace rt).1, (GetDeviceGrayInstace rt).2) ∧
        (GetDeviceGrayInstace rt).1.obj.GetType = t) ∨
      (t = .DeviceRGB ∧
        GetTrivialFilter t rt = (.ok (GetDeviceRGBInstace rt).1, (GetDeviceRGBInstace rt).2) ∧
        (GetDeviceRGBInstace rt).1.obj.GetType = t) ∨
      (t = .DeviceCMYK ∧
        GetTrivialFilter t rt = (.ok (GetDeviceCMYKInstace rt).1, (GetDeviceCMYKInstace rt).2) ∧
        (GetDeviceCMYKInstace rt).1.obj.GetType = t) ∨
      (t ≠ .DeviceGray ∧ t ≠ .DeviceRGB ∧ t ≠ .DeviceCMYK ∧
        GetTrivialFilter t rt =
          (.error (.PdfError .CannotConvertColor "Invalid color space"), rt)) := by
  cases t with
  | DeviceGray =>
    refine Or.inl ⟨rfl, rfl, ?_⟩
    rw [GetDeviceGrayInstace_obj]
    rfl
  | DeviceRGB =>
    refine Or.inr (Or.inl ⟨rfl, rfl, ?_⟩)
    rw [GetDeviceRGBInstace_obj]
    rfl
  | DeviceCMYK =>
    refine Or.inr (Or.inr (Or.inl ⟨rfl, rfl, ?_⟩))
    rw [GetDeviceCMYKInstace_obj]
    rfl
  | Unknown => exact Or.inr (Or.inr (Or.inr ⟨by decide, by decide, by decide, rfl⟩))
  | Indexed => exact Or.inr (Or.inr (Or.inr ⟨by decide, by decide, by decide, rfl⟩))
  | Separation => exact Or.inr (Or.inr (Or.inr ⟨by decide, by decide, by decide, rfl⟩))
  | Lab => exact Or.inr (Or.inr (Or.inr ⟨by decide, by decide, by decide, rfl⟩))
  | Other tag =>
    exact Or.inr (Or.inr (Or.inr ⟨(fun h => by cases h), (fun h => by cases h),
      (fun h => by cases h), rfl⟩))


/-- C11 (amended): on the Unknown filter GetType returns Unknown, IsRawEncoded and
IsTrivial return false (the defaults of the base class, which the class does not
override), and every other accessor and operation (GetPixelFormat,
GetSourceScanLineSize, GetScanLineSize, FetchScanLine, GetExportObject,
GetColorComponentCount) raises NotImplemented for all arguments, leaving the
destination scanline and the object list as they were. -/
theorem C11_unknown_filter_operations (dmul : Rat → Rat → Rat) (dst src : ScanLine)
    (width bitsPerComponent : Nat) (objects : PdfIndirectObjectList) :
    PdfColorSpaceFilter.Unknown.GetType = .Unknown ∧
      PdfColorSpaceFilter.Unknown.IsRawEncoded = .ok false ∧
      PdfColorSpaceFilter.Unknown.IsTrivial = false ∧
      PdfColorSpaceFilter.Unknown.GetPixelFormat =
        .error (.PdfError .NotImplemented
          "Operation unsupported in unknown type color space") ∧
      PdfColorSpaceFilter.Unknown.GetSourceScanLineSize width bitsPerComponent =
        .error (.PdfError .NotImplemented
          "Operation unsupported in unknown type color space") ∧
      PdfColorSpaceFilter.Unknown.GetScanLineSize width bitsPerComponent =
        .error (.PdfError .NotImplemented
          "Operation unsupported in unknown type color space") ∧
      PdfColorSpaceFilter.Unknown.FetchScanLine dst src width bitsPerComponent =
        (.error (.PdfError .NotImplemented
          "Operation unsupported in unknown type color space"), dst) ∧
      PdfColorSpaceFilter.Unknown.GetExportObject dmul objects =
        (.error (.PdfError .NotImplemented
          "Operation unsupported in unknown type color space"), objects) ∧
      PdfColorSpaceFilter.Unknown.GetColorComponentCount =
        .error (.PdfError .NotImplemented
          "Operation unsupported in unknown type color space") :=
  ⟨rfl, rfl, rfl, rfl, rfl, rfl, rfl, rfl, rfl⟩

/-- C11, as stated, fails: IsRawEncoded and IsTrivial of the Unknown filter return
false, they raise nothing. -/
theorem C11_counterexample_unknown_flags_return_false :
    PdfColorSpaceFilter.Unknown.IsRawEncoded = .ok false ∧
    (∀ info, PdfColorSpaceFilter.Unknown.IsRawEncoded ≠
      .error (.PdfError .NotImplemented info)) ∧
    PdfColorSpaceFilter.Unknown.IsTrivial = false :=
  ⟨rfl, (fun _ h => by cases h), rfl⟩

/-- C12: on every Separation filter and every Lab filter each of IsRawEncoded,
GetPixelFormat, GetSourceScanLineSize, GetScanLineSize and FetchScanLine raises
NotImplemented for all arguments, FetchScanLine leaves the destination scanline as it
was, and GetType and GetColorComponentCount return Separation and 1, Lab and 3. -/
theorem C12_separation_and_lab_raster_operations (name : String) (color : PdfColor)
    (whitePoint blackPoint range : List Rat) (dst src : ScanLine)
    (width bitsPerComponent : Nat) :
    ((PdfColorSpaceFilter.Separation name color).IsRawEncoded =
        .error (.PdfError .NotImplemented "") ∧
      (PdfColorSpaceFilter.Separation name color).GetPixelFormat =
        .error (.PdfError .NotImplemented "") ∧
      (PdfColorSpaceFilter.Separation name color).GetSourceScanLineSize width
        bitsPerComponent = .error (.PdfError .NotImplemented "") ∧
      (PdfColorSpaceFilter.Separation name color).GetScanLineSize width bitsPerComponent =
        .error (.PdfError .NotImplemented "") ∧
      (PdfColorSpaceFilter.Separation name color).FetchScanLine dst src width
        bitsPerComponent = (.error (.PdfError .NotImplemented ""), dst) ∧
      (PdfColorSpaceFilter.Separation name color).GetType = .Separation ∧
      (PdfColorSpaceFilter.Separation name color).GetColorComponentCount = .ok 1) ∧
    ((PdfColorSpaceFilter.Lab whitePoint blackPoint range).IsRawEncoded =
        .error (.PdfError .NotImplemented "") ∧
      (PdfColorSpaceFilter.Lab whitePoint blackPoint range).GetPixelFormat =
        .error (.PdfError .NotImplemented "") ∧
      (PdfColorSpaceFilter.Lab whitePoint blackPoint range).GetSourceScanLineSize width
        bitsPerComponent = .error (.PdfError .NotImplemented "") ∧
      (PdfColorSpaceFilter.Lab whitePoint blackPoint range).GetScanLineSize width
        bitsPerComponent = .error (.PdfError .NotImplemented "") ∧
      (PdfColorSpaceFilter.Lab whitePoint blackPoint range).FetchScanLine dst src width
        bitsPerComponent = (.error (.PdfError .NotImplemented ""), dst) ∧
      (PdfColorSpaceFilter.Lab whitePoint blackPoint range).GetType = .Lab ∧
      (PdfColorSpaceFilter.Lab whitePoint blackPoint range).GetColorComponentCount =
        .ok 3) :=
  ⟨⟨rfl, rfl, rfl, rfl, rfl, rfl, rfl⟩, ⟨rfl, rfl, rfl, rfl, rfl, rfl, rfl⟩⟩

/-- The type of a filter is DeviceRGB only for the DeviceRGB filter. -/
theorem GetType_eq_DeviceRGB (f : PdfColorSpaceFilter) (h : f.GetType = .DeviceRGB) :
    f = .DeviceRGB := by
  cases f <;> first | rfl | cases h

/-- C15: FetchScanLine of an Indexed filter raises UnsupportedFilter with the message
about the base, writing nothing, whenever the type of the base is not DeviceRGB,
whatever bitsPerComponent is; it raises UnsupportedFilter with the message
"/BitsPerComponent != 8", writing nothing, whenever the base is DeviceRGB and
bitsPerComponent is not 8; with base DeviceRGB and bitsPerComponent 8 it does not
raise UnsupportedFilter. -/
theorem C15_indexed_FetchScanLine_unsupported (baseAddr mapSize : Nat)
    (base : PdfColorSpaceFilter) (lookup : charbuff) (dst src : ScanLine)
    (width bitsPerComponent : Nat) :
    (base.GetType ≠ .DeviceRGB ∧
        (PdfColorSpaceFilter.Indexed baseAddr base mapSize lookup).FetchScanLine dst src width
          bitsPerComponent =
          (.error (.PdfError .UnsupportedFilter
            "Unsupported base color space in /Indexed color space"), dst)) ∨
      (base.GetType = .DeviceRGB ∧ bitsPerComponent ≠ 8 ∧
        (PdfColorSpaceFilter.Indexed baseAddr base mapSize lookup).FetchScanLine dst src width
          bitsPerComponent =
          (.error (.PdfError .UnsupportedFilter "/BitsPerComponent != 8"), dst)) ∨
      (base.GetType = .DeviceRGB ∧ bitsPerComponent = 8 ∧
        ∀ info, ((PdfColorSpaceFilter.Indexed baseAddr base mapSize lookup).FetchScanLine dst
          src width bitsPerComponent).1 ≠ .error (.PdfError .UnsupportedFilter info)) := by
  by_cases hbase : base.GetType = .DeviceRGB
  · have hb := GetType_eq_DeviceRGB base hbase
    subst hb
    by_cases hbits : bitsPerComponent = 8
    · subst hbits
      refine Or.inr (Or.inr ⟨rfl, rfl, ?_⟩)
      intro info herr
      rw [FetchScanLine_indexed_rgb_eight] at herr
      by_cases hall : ∀ j, 0 ≤ j → j < 0 + width → (src j).toNat < mapSize
      · rw [FetchScanLineLoop_ok mapSize lookup src width 0 dst hall] at herr
        cases herr
      · have hex : ∃ j, 0 ≤ j ∧ j < 0 + width ∧ ¬ (src j).toNat < mapSize := by
          by_contra hno
          exact hall (fun j h1 h2 => by
            by_contra hj
            exact hno ⟨j, h1, h2, hj⟩)
        rw [FetchScanLineLoop_error mapSize lookup src width 0 dst hex] at herr
        cases herr
    · refine Or.inr (Or.inl ⟨rfl, hbits, ?_⟩)
      simp [PdfColorSpaceFilter.FetchScanLine, PdfColorSpaceFilterIndexed.FetchScanLine,
        PdfColorSpaceFilter.GetType, hbits]
  · refine Or.inl ⟨hbase, ?_⟩
    cases base <;>
      first
      | exact absurd rfl hbase
      | rfl


/-- The product of the size formula on `unsigned` when it does not wrap. -/
theorem umul_umul_no_wrap (n width bpc : Nat) (h : n * width * bpc < 4294967296) :
    umul (umul n width) bpc = n * width * bpc := by
  unfold umul UINT_SIZE
  rcases Nat.eq_zero_or_pos bpc with hb | hb
  · subst hb
    simp
  · have hle : n * width ≤ n * width * bpc := Nat.le_mul_of_pos_right _ hb
    have h1 : n * width % 4294967296 = n * width := Nat.mod_eq_of_lt (by omega)
    rw [h1]
    exact Nat.mod_eq_of_lt h

/-- What the virtual `FetchScanLine` of a device filter with n components does. -/
theorem device_FetchScanLine_eq (f : PdfColorSpaceFilter) (n width bpc : Nat)
    (dst src : ScanLine)
    (hdev : f = .DeviceGray ∨ f = .DeviceRGB ∨ f = .DeviceCMYK)
    (hn : f.GetColorComponentCount = .ok n) :
    f.FetchScanLine dst src width bpc =
      (.ok (), memcpy dst src (umul (umul n width) bpc / 8)) := by
  rcases hdev with h | h | h
  · subst h
    have h1 : n = 1 := by
      simp only [PdfColorSpaceFilter.GetColorComponentCount, Except.ok.injEq] at hn
      exact hn.symm
    subst h1
    rw [← one_mul_width]
    rfl
  · subst h
    have h1 : n = 3 := by
      simp only [PdfColorSpaceFilter.GetColorComponentCount, Except.ok.injEq] at hn
      exact hn.symm
    subst h1
    rfl
  · subst h
    have h1 : n = 4 := by
      simp only [PdfColorSpaceFilter.GetColorComponentCount, Except.ok.injEq] at hn
      exact hn.symm
    subst h1
    rfl

/-- What the virtual `GetScanLineSize` of a device filter with n components returns. -/
theorem device_GetScanLineSize_eq (f : PdfColorSpaceFilter) (n width bpc : Nat)
    (hdev : f = .DeviceGray ∨ f = .DeviceRGB ∨ f = .DeviceCMYK)
    (hn : f.GetColorComponentCount = .ok n) :
    f.GetScanLineSize width bpc = .ok (usub (uadd (umul (umul n width) bpc) 8) 1 / 8) := by
  rcases hdev with h | h | h
  · subst h
    have h1 : n = 1 := by
      simp only [PdfColorSpaceFilter.GetColorComponentCount, Except.ok.injEq] at hn
      exact hn.symm
    subst h1
    rw [← one_mul_width]
    rfl
  · subst h
    have h1 : n = 3 := by
      simp only [PdfColorSpaceFilter.GetColorComponentCount, Except.ok.injEq] at hn
      exact hn.symm
    subst h1
    rfl
  · subst h
    have h1 : n = 4 := by
      simp only [PdfColorSpaceFilter.GetColorComponentCount, Except.ok.injEq] at hn
      exact hn.symm
    subst h1
    rfl

/-- C14 (amended): for each device space with component count n (1, 3, 4), every width
and bitsPerComponent with n*width*bitsPerComponent below 2^32, FetchScanLine succeeds
and copies exactly floor(n*width*bitsPerComponent/8) bytes: dst[j] = src[j] for every
j below that count, dst[j] is unchanged for every j at or above it; when
bitsPerComponent is a multiple of 8 that count is GetScanLineSize(width,
bitsPerComponent). -/
theorem C14_device_FetchScanLine_copies_whole_bytes (f : PdfColorSpaceFilter)
    (n width bpc : Nat) (dst src : ScanLine)
    (hdev : f = .DeviceGray ∨ f = .DeviceRGB ∨ f = .DeviceCMYK)
    (hn : f.GetColorComponentCount = .ok n)
    (hfit : n * width * bpc < 4294967296) :
    (f.FetchScanLine dst src width bpc).1 = .ok () ∧
      (∀ j, j < n * width * bpc / 8 → (f.FetchScanLine dst src width bpc).2 j = src j) ∧
      (∀ j, n * width * bpc / 8 ≤ j → (f.FetchScanLine dst src width bpc).2 j = dst j) ∧
      (bpc % 8 = 0 → f.GetScanLineSize width bpc = .ok (n * width * bpc / 8)) := by
  rw [device_FetchScanLine_eq f n width bpc dst src hdev hn,
    umul_umul_no_wrap n width bpc hfit]
  refine ⟨rfl, ?_, ?_, ?_⟩
  · intro j hj
    simp only [memcpy, if_pos hj]
  · intro j hj
    have hnot : ¬ j < n * width * bpc / 8 := by omega
    simp only [memcpy, if_neg hnot]
  · intro hb
    have hdiv : n * width * bpc % 8 = 0 := by
      rw [Nat.mul_mod, hb]
      simp
    rw [device_GetScanLineSize_eq f n width bpc hdev hn]
    have hsize := scanLineSize_no_wrap n width bpc (by omega)
    rw [hsize]
    exact congrArg Except.ok (by omega)

/-- Witness of C14: DeviceRGB, width 2, 8 bits per component: 6 bytes are copied. -/
theorem C14_device_FetchScanLine_copies_whole_bytes_witness :
    ((PdfColorSpaceFilter.DeviceRGB = .DeviceGray ∨
        PdfColorSpaceFilter.DeviceRGB = .DeviceRGB ∨
        PdfColorSpaceFilter.DeviceRGB = .DeviceCMYK) ∧
      PdfColorSpaceFilter.DeviceRGB.GetColorComponentCount = .ok 3 ∧
      3 * 2 * 8 < 4294967296) ∧
    ((PdfColorSpaceFilter.DeviceRGB.FetchScanLine (fun _ => 0) (fun _ => 7) 2 8).1 = .ok () ∧
      (∀ j, j < 3 * 2 * 8 / 8 →
        (PdfColorSpaceFilter.DeviceRGB.FetchScanLine (fun _ => 0) (fun _ => 7) 2 8).2 j =
          (fun _ => 7 : ScanLine) j) ∧
      (∀ j, 3 * 2 * 8 / 8 ≤ j →
        (PdfColorSpaceFilter.DeviceRGB.FetchScanLine (fun _ => 0) (fun _ => 7) 2 8).2 j =
          (fun _ => 0 : ScanLine) j) ∧
      (8 % 8 = 0 → PdfColorSpaceFilter.DeviceRGB.GetScanLineSize 2 8 = .ok (3 * 2 * 8 / 8))) :=
  ⟨⟨Or.inr (Or.inl rfl), rfl, by decide⟩,
    C14_device_FetchScanLine_copies_whole_bytes .DeviceRGB 3 2 8 (fun _ => 0) (fun _ => 7)
      (Or.inr (Or.inl rfl)) rfl (by decide)⟩

/-- C14, as stated, fails for a wide scanline: DeviceGray with width 2^29 and 8 bits
per component has width*bitsPerComponent = 2^32, which wraps to 0 on unsigned, so no
byte is copied: dst[0] keeps its old content 0 although src[0] is 1 and 0 is below
floor(1*2^29*8/8) = 2^29. -/
theorem C14_counterexample_copy_count_wraps :
    (PdfColorSpaceFilter.DeviceGray.GetColorComponentCount = .ok 1 ∧
      0 < 1 * 536870912 * 8 / 8) ∧
    (PdfColorSpaceFilter.DeviceGray.FetchScanLine (fun _ => 0) (fun _ => 1) 536870912 8).2 0 =
      0 ∧
    (fun _ => 1 : ScanLine) 0 = 1 := by
  refine ⟨⟨rfl, by decide⟩, ?_, rfl⟩
  have hcount : umul 536870912 8 / 8 = 0 := by decide
  show memcpy (fun _ => 0) (fun _ => 1) (umul 536870912 8 / 8) 0 = 0
  rw [hcount]
  rfl


/-- A successful `FetchScanLine` of an Indexed filter: the base is DeviceRGB, the bit
depth is 8 and every index read is in range. -/
theorem indexed_FetchScanLine_ok (baseAddr mapSize : Nat) (base : PdfColorSpaceFilter)
    (lookup : charbuff) (dst src : ScanLine) (width bpc : Nat)
    (h : ((PdfColorSpaceFilter.Indexed baseAddr base mapSize lookup).FetchScanLine dst src
      width bpc).1 = .ok ()) :
    base = .DeviceRGB ∧ bpc = 8 ∧ ∀ j, 0 ≤ j → j < 0 + width → (src j).toNat < mapSize := by
  by_cases hbase : base.GetType = .DeviceRGB
  · have hb := GetType_eq_DeviceRGB base hbase
    subst hb
    by_cases hbits : bpc = 8
    · subst hbits
      refine ⟨rfl, rfl, ?_⟩
      rw [FetchScanLine_indexed_rgb_eight] at h
      intro j h1 h2
      by_contra hj
      rw [FetchScanLineLoop_error mapSize lookup src width 0 dst ⟨j, h1, h2, hj⟩] at h
      cases h
    · simp [PdfColorSpaceFilter.FetchScanLine, PdfColorSpaceFilterIndexed.FetchScanLine,
        PdfColorSpaceFilter.GetType, hbits] at h
  · exfalso
    cases base <;>
      first
      | exact hbase rfl
      | cases h

/-- The size formula on `unsigned` when the bits of a row fill whole bytes: the
byte count of the copy, wrapped or not. -/
theorem scanLineSize_of_whole_bytes (n width bpc : Nat) (h8 : n * width * bpc % 8 = 0) :
    usub (uadd (umul (umul n width) bpc) 8) 1 / 8 = umul (umul n width) bpc / 8 := by
  have hprod : umul (umul n width) bpc = n * width * bpc % 4294967296 := by
    unfold umul UINT_SIZE
    rw [Nat.mod_mul_mod]
  rw [hprod]
  unfold usub uadd UINT_SIZE
  omega

/-- C13 (amended): for every filter, width and bitsPerComponent on which FetchScanLine
succeeds, with c the number of components of the pixel format of the filter
(Grayscale 1, RGB 3, CMYK 4), provided c*width*bitsPerComponent is a multiple of 8
and, when the filter is an Indexed filter, 3*width*8 is below 2^32 (width at most
178956970) and its lookup has at least 3*MapSize bytes: the bytes of dst at offsets
at or beyond GetScanLineSize(width, bitsPerComponent) are unchanged, and every byte
below it is assigned by the call (its final content does not depend on what dst
held). For the device filters no bound on the width is needed: the size and the
count of bytes copied wrap alike. -/
theorem C13_FetchScanLine_writes_GetScanLineSize_bytes (f : PdfColorSpaceFilter)
    (dst src : ScanLine) (width bpc c : Nat) (fmt : PdfColorSpacePixelFormat)
    (hsucc : (f.FetchScanLine dst src width bpc).1 = .ok ())
    (hfmt : f.GetPixelFormat = .ok fmt)
    (hc : (fmt = .Grayscale ∧ c = 1) ∨ (fmt = .RGB ∧ c = 3) ∨ (fmt = .CMYK ∧ c = 4))
    (h8 : c * width * bpc % 8 = 0)
    (hidx : ∀ (baseAddr mapSize : Nat) (base : PdfColorSpaceFilter) (lookup : charbuff),
      f = .Indexed baseAddr base mapSize lookup →
        3 * width * 8 < 4294967296 ∧ 3 * mapSize ≤ lookup.length) :
    ∃ size, f.GetScanLineSize width bpc = .ok size ∧
      (∀ j, size ≤ j → (f.FetchScanLine dst src width bpc).2 j = dst j) ∧
      (∀ j, j < size → ∀ dst2 : ScanLine,
        (f.FetchScanLine dst2 src width bpc).2 j = (f.FetchScanLine dst src width bpc).2 j) := by
  have hdevice : ∀ g : PdfColorSpaceFilter,
      (g = .DeviceGray ∨ g = .DeviceRGB ∨ g = .DeviceCMYK) →
      g.GetColorComponentCount = .ok c →
      ∃ size, g.GetScanLineSize width bpc = .ok size ∧
        (∀ j, size ≤ j → (g.FetchScanLine dst src width bpc).2 j = dst j) ∧
        (∀ j, j < size → ∀ dst2 : ScanLine,
          (g.FetchScanLine dst2 src width bpc).2 j =
            (g.FetchScanLine dst src width bpc).2 j) := by
    intro g hdev hn
    refine ⟨umul (umul c width) bpc / 8, ?_, ?_, ?_⟩
    · rw [device_GetScanLineSize_eq g c width bpc hdev hn,
        scanLineSize_of_whole_bytes c width bpc h8]
    · intro j hj
      rw [device_FetchScanLine_eq g c width bpc dst src hdev hn]
      have hnot : ¬ j < umul (umul c width) bpc / 8 := by omega
      simp only [memcpy, if_neg hnot]
    · intro j hj dst2
      rw [device_FetchScanLine_eq g c width bpc dst src hdev hn,
        device_FetchScanLine_eq g c width bpc dst2 src hdev hn]
      simp only [memcpy, if_pos hj]
  cases f with
  | DeviceGray =>
    have hc1 : c = 1 := by
      simp only [PdfColorSpaceFilter.GetPixelFormat, Except.ok.injEq] at hfmt
      subst hfmt
      rcases hc with h | h | h
      · exact h.2
      · exact absurd h.1 (by decide)
      · exact absurd h.1 (by decide)
    exact hdevice .DeviceGray (Or.inl rfl) (by rw [hc1]; rfl)
  | DeviceRGB =>
    have hc1 : c = 3 := by
      simp only [PdfColorSpaceFilter.GetPixelFormat, Except.ok.injEq] at hfmt
      subst hfmt
      rcases hc with h | h | h
      · exact absurd h.1 (by decide)
      · exact h.2
      · exact absurd h.1 (by decide)
    exact hdevice .DeviceRGB (Or.inr (Or.inl rfl)) (by rw [hc1]; rfl)
  | DeviceCMYK =>
    have hc1 : c = 4 := by
      simp only [PdfColorSpaceFilter.GetPixelFormat, Except.ok.injEq] at hfmt
      subst hfmt
      rcases hc with h | h | h
      · exact absurd h.1 (by decide)
      · exact absurd h.1 (by decide)
      · exact h.2
    exact hdevice .DeviceCMYK (Or.inr (Or.inr rfl)) (by rw [hc1]; rfl)
  | Indexed baseAddr base mapSize lookup =>
    obtain ⟨hbound, _⟩ := hidx baseAddr mapSize base lookup rfl
    have hfit : 3 * width * 8 + 7 < 4294967296 := by omega
    obtain ⟨hbase, hbits, hall⟩ :=
      indexed_FetchScanLine_ok baseAddr mapSize base lookup dst src width bpc hsucc
    subst hbase hbits
    have hw : 0 + width ≤ 1431655766 := by omega
    refine ⟨3 * width, ?_, ?_, ?_⟩
    · have hsize := scanLineSize_no_wrap 3 width 8 hfit
      have hrun : (PdfColorSpaceFilter.Indexed baseAddr .DeviceRGB mapSize lookup).GetScanLineSize
          width 8 = .ok (usub (uadd (umul (umul 3 width) 8) 8) 1 / 8) := rfl
      rw [hrun, hsize]
      exact congrArg Except.ok (by omega)
    · intro j hj
      rw [FetchScanLine_indexed_rgb_eight,
        FetchScanLineLoop_dst mapSize lookup src width 0 dst hw hall j]
      have hnot : ¬ (3 * 0 ≤ j ∧ j < 3 * (0 + width)) := by omega
      rw [if_neg hnot]
    · intro j hj dst2
      rw [FetchScanLine_indexed_rgb_eight, FetchScanLine_indexed_rgb_eight,
        FetchScanLineLoop_dst mapSize lookup src width 0 dst hw hall j,
        FetchScanLineLoop_dst mapSize lookup src width 0 dst2 hw hall j]
      have hin : 3 * 0 ≤ j ∧ j < 3 * (0 + width) := by omega
      rw [if_pos hin, if_pos hin]
  | Unknown => cases hsucc
  | Separation name color => cases hsucc
  | Lab whitePoint blackPoint range => cases hsucc

/-- Witness of C13: an Indexed filter over DeviceRGB with a palette of two entries, a
scanline of two pixels, 8 bits per component. -/
theorem C13_FetchScanLine_writes_GetScanLineSize_bytes_witness :
    (((PdfColorSpaceFilter.Indexed 0 .DeviceRGB 2 [1, 2, 3, 4, 5, 6]).FetchScanLine
        (fun _ => 0) (fun j => if j = 0 then 1 else 0) 2 8).1 = .ok () ∧
      (PdfColorSpaceFilter.Indexed 0 .DeviceRGB 2 [1, 2, 3, 4, 5, 6]).GetPixelFormat =
        .ok .RGB ∧
      ((PdfColorSpacePixelFormat.RGB = .Grayscale ∧ 3 = 1) ∨
        (PdfColorSpacePixelFormat.RGB = .RGB ∧ 3 = 3) ∨
        (PdfColorSpacePixelFormat.RGB = .CMYK ∧ 3 = 4)) ∧
      3 * 2 * 8 % 8 = 0 ∧
      (∀ (baseAddr mapSize : Nat) (base : PdfColorSpaceFilter) (lookup : charbuff),
        PdfColorSpaceFilter.Indexed 0 .DeviceRGB 2 [1, 2, 3, 4, 5, 6] =
            .Indexed baseAddr base mapSize lookup →
          3 * 2 * 8 < 4294967296 ∧ 3 * mapSize ≤ lookup.length)) ∧
    ∃ size, (PdfColorSpaceFilter.Indexed 0 .DeviceRGB 2 [1, 2, 3, 4, 5, 6]).GetScanLineSize
        2 8 = .ok size ∧
      (∀ j, size ≤ j →
        ((PdfColorSpaceFilter.Indexed 0 .DeviceRGB 2 [1, 2, 3, 4, 5, 6]).FetchScanLine
          (fun _ => 0) (fun j => if j = 0 then 1 else 0) 2 8).2 j = (fun _ => 0 : ScanLine) j) ∧
      (∀ j, j < size → ∀ dst2 : ScanLine,
        ((PdfColorSpaceFilter.Indexed 0 .DeviceRGB 2 [1, 2, 3, 4, 5, 6]).FetchScanLine
          dst2 (fun j => if j = 0 then 1 else 0) 2 8).2 j =
        ((PdfColorSpaceFilter.Indexed 0 .DeviceRGB 2 [1, 2, 3, 4, 5, 6]).FetchScanLine
          (fun _ => 0) (fun j => if j = 0 then 1 else 0) 2 8).2 j) :=
  ⟨⟨rfl, rfl, Or.inr (Or.inl ⟨rfl, rfl⟩), by decide,
      fun _ _ _ _ h => by
        cases h
        exact ⟨by decide, by decide⟩⟩,
    C13_FetchScanLine_writes_GetScanLineSize_bytes
      (.Indexed 0 .DeviceRGB 2 [1, 2, 3, 4, 5, 6]) (fun _ => 0)
      (fun j => if j = 0 then 1 else 0) 2 8 3 .RGB rfl rfl (Or.inr (Or.inl ⟨rfl, rfl⟩))
      (by decide)
      (fun _ _ _ _ h => by
        cases h
        exact ⟨by decide, by decide⟩)⟩

/-- C13, as stated, fails in two ways. When the bits of a row do not fill whole bytes:
on DeviceGray with width 1 and 1 bit per component FetchScanLine succeeds and
GetScanLineSize is 1, but no byte is copied: the byte at offset 0 is left as it was,
5 when dst held 5 and 6 when dst held 6, although the source byte is 9. When the
size of an Indexed row wraps: on an Indexed filter over DeviceRGB with a palette of
one entry, width 178956971 and 8 bits per component, 3*width*8 = 2^32 + 8, so
GetScanLineSize is 1, while FetchScanLine succeeds and writes the byte at offset 1,
at or beyond that size: it held 0 and holds 7 after the call. -/
theorem C13_counterexample_size_is_not_the_bytes_written :
    ((PdfColorSpaceFilter.DeviceGray.FetchScanLine (fun _ => 5) (fun _ => 9) 1 1).1 = .ok () ∧
      PdfColorSpaceFilter.DeviceGray.GetScanLineSize 1 1 = .ok 1 ∧
      (PdfColorSpaceFilter.DeviceGray.FetchScanLine (fun _ => 5) (fun _ => 9) 1 1).2 0 = 5 ∧
      (PdfColorSpaceFilter.DeviceGray.FetchScanLine (fun _ => 6) (fun _ => 9) 1 1).2 0 = 6) ∧
    ((3 * 1 ≤ ([7, 7, 7] : charbuff).length ∧ 3 * 178956971 * 8 % 8 = 0 ∧
        3 * 178956971 * 8 = 4294967296 + 8) ∧
      ((PdfColorSpaceFilter.Indexed 0 .DeviceRGB 1 [7, 7, 7]).FetchScanLine
        (fun _ => 0) (fun _ => 0) 178956971 8).1 = .ok () ∧
      (PdfColorSpaceFilter.Indexed 0 .DeviceRGB 1 [7, 7, 7]).GetScanLineSize 178956971 8 =
        .ok 1 ∧
      ((PdfColorSpaceFilter.Indexed 0 .DeviceRGB 1 [7, 7, 7]).FetchScanLine
        (fun _ => 0) (fun _ => 0) 178956971 8).2 1 = 7 ∧
      (fun _ => 0 : ScanLine) 1 = 0) := by
  have hall : ∀ j, 0 ≤ j → j < 0 + 178956971 → ((fun _ => 0 : ScanLine) j).toNat < 1 :=
    fun _ _ _ => (by decide : (0 : UInt8).toNat < 1)
  refine ⟨⟨rfl, rfl, rfl, rfl⟩, ⟨by decide, by decide, by decide⟩, ?_, ?_, ?_, rfl⟩
  · rw [FetchScanLine_indexed_rgb_eight]
    exact FetchScanLineLoop_ok 1 [7, 7, 7] (fun _ => 0) 178956971 0 (fun _ => 0) hall
  · have hsize : usub (uadd (umul (umul 3 178956971) 8) 8) 1 / 8 = 1 := by decide
    show Except.ok (usub (uadd (umul (umul 3 178956971) 8) 8) 1 / 8) = Except.ok 1
    rw [hsize]
  · rw [FetchScanLine_indexed_rgb_eight,
      FetchScanLineLoop_dst 1 [7, 7, 7] (fun _ => 0) 178956971 0 (fun _ => 0) (by decide)
        hall 1]
    have hin : 3 * 0 ≤ 1 ∧ 1 < 3 * (0 + 178956971) := by decide
    rw [if_pos hin]
    rfl


/-- A change at the position of the last object changes the last object. -/
theorem modifyObject_last (f : PdfObject → PdfObject) (objects : List PdfObject)
    (obj : PdfObject) :
    PdfIndirectObjectList.modifyObject f objects.length (objects ++ [obj]) =
      objects ++ [f obj] := by
  induction objects with
  | nil => rfl
  | cons head tail ih =>
    show head :: PdfIndirectObjectList.modifyObject f tail.length (tail ++ [obj]) =
      head :: (tail ++ [f obj])
    rw [ih]

/-- A change of the object created last changes the last object of the list. -/
theorem updateObject_last (f : PdfObject → PdfObject) (objects : PdfIndirectObjectList)
    (obj : PdfObject) :
    PdfIndirectObjectList.updateObject (objects.length + 1) f (objects ++ [obj]) =
      objects ++ [f obj] := by
  simp only [PdfIndirectObjectList.updateObject, modifyObject_last]

/-- The tint function object as the common part of the export leaves it. -/
theorem createTintFunc_eq (objects : PdfIndirectObjectList) :
    PdfColorSpaceFilterSeparation.createTintFunc objects =
      (objects.length + 1, objects ++ [.Dictionary
        [("BitsPerSample", .Number 8),
          ("Decode", .Array [.Number 0, .Number 1, .Number 0, .Number 1,
            .Number 0, .Number 1, .Number 0, .Number 1]),
          ("Domain", .Array [.Number 0, .Number 1]),
          ("Encode", .Array [.Number 0, .Number 1]),
          ("Filter", .Name "FlateDecode"),
          ("FunctionType", .Number 0)] none]) := by
  simp only [PdfColorSpaceFilterSeparation.createTintFunc,
    PdfIndirectObjectList.CreateDictionaryObject, updateObject_last, PdfObject.AddKey,
    PdfDictionary.AddKey, PdfNames.Filter]
  simp


/-- The export of a separation filter whose alternate color is gray. -/
theorem Separation_export_gray (dmul : Rat → Rat → Rat) (name : String) (color : PdfColor)
    (objects : PdfIndirectObjectList) (h : color.GetColorSpace = .DeviceGray) :
    PdfColorSpaceFilterSeparation.GetExportObject dmul name color objects =
      (.ok (.Array [.Name "Separation", .Name name, .Name "DeviceGray",
        .Reference (objects.length + 1) 0]),
        objects ++ [.Dictionary
          [("BitsPerSample", .Number 8),
            ("Decode", .Array [.Number 0, .Number 1, .Number 0, .Number 1,
              .Number 0, .Number 1, .Number 0, .Number 1]),
            ("Domain", .Array [.Number 0, .Number 1]),
            ("Encode", .Array [.Number 0, .Number 1]),
            ("Filter", .Name "FlateDecode"),
            ("FunctionType", .Number 0),
            ("Range", .Array [.Number 0, .Number 1]),
            ("Size", .Array [.Number 2])]
          (some [0, doubleToChar color.GetGrayScale])]) := by
  simp only [PdfColorSpaceFilterSeparation.GetExportObject, createTintFunc_eq, h,
    updateObject_last, PdfObject.AddKey, PdfObject.SetData, PdfDictionary.AddKey]
  simp

/-- The export of a separation filter whose alternate color is RGB. -/
theorem Separation_export_rgb (dmul : Rat → Rat → Rat) (name : String) (color : PdfColor)
    (objects : PdfIndirectObjectList) (h : color.GetColorSpace = .DeviceRGB) :
    PdfColorSpaceFilterSeparation.GetExportObject dmul name color objects =
      (.ok (.Array [.Name "Separation", .Name name, .Name "DeviceRGB",
        .Reference (objects.length + 1) 0]),
        objects ++ [.Dictionary
          [("BitsPerSample", .Number 8),
            ("Decode", .Array [.Number 0, .Number 1, .Number 0, .Number 1,
              .Number 0, .Number 1, .Number 0, .Number 1]),
            ("Domain", .Array [.Number 0, .Number 1]),
            ("Encode", .Array [.Number 0, .Number 1]),
            ("Filter", .Name "FlateDecode"),
            ("FunctionType", .Number 0),
            ("Range", .Array [.Number 0, .Number 1, .Number 0, .Number 1,
              .Number 0, .Number 1]),
            ("Size", .Array [.Number 2])]
          (some [0, 0, 0, doubleToChar (dmul color.GetRed 255),
            doubleToChar (dmul color.GetGreen 255), doubleToChar (dmul color.GetBlue 255)])]) := by
  simp only [PdfColorSpaceFilterSeparation.GetExportObject, createTintFunc_eq, h,
    updateObject_last, PdfObject.AddKey, PdfObject.SetData, PdfDictionary.AddKey]
  simp

/-- The export of a separation filter whose alternate color is CMYK. -/
theorem Separation_export_cmyk (dmul : Rat → Rat → Rat) (name : String) (color : PdfColor)
    (objects : PdfIndirectObjectList) (h : color.GetColorSpace = .DeviceCMYK) :
    PdfColorSpaceFilterSeparation.GetExportObject dmul name color objects =
      (.ok (.Array [.Name "Separation", .Name name, .Name "DeviceCMYK",
        .Reference (objects.length + 1) 0]),
        objects ++ [.Dictionary
          [("BitsPerSample", .Number 8),
            ("Decode", .Array [.Number 0, .Number 1, .Number 0, .Number 1,
              .Number 0, .Number 1, .Number 0, .Number 1]),
            ("Domain", .Array [.Number 0, .Number 1]),
            ("Encode", .Array [.Number 0, .Number 1]),
            ("Filter", .Name "FlateDecode"),
            ("FunctionType", .Number 0),
            ("Range", .Array [.Number 0, .Number 1, .Number 0, .Number 1,
              .Number 0, .Number 1, .Number 0, .Number 1]),
            ("Size", .Array [.Number 2])]
          (some [0, 0, 0, 0, doubleToChar (dmul color.GetCyan 255),
            doubleToChar (dmul color.GetMagenta 255), doubleToChar (dmul color.GetYellow 255),
            doubleToChar (dmul color.GetBlack 255)])]) := by
  simp only [PdfColorSpaceFilterSeparation.GetExportObject, createTintFunc_eq, h,
    updateObject_last, PdfObject.AddKey, PdfObject.SetData, PdfDictionary.AddKey]
  simp

/-- What the constructor of the separation filter returns. -/
theorem Separation_ctor_ok (name : String) (color : PdfColor) (f : PdfColorSpaceFilter)
    (h : PdfColorSpaceFilterSeparation.PdfColorSpaceFilterSeparation name color = .ok f) :
    f = .Separation name color ∧
      (color.GetColorSpace = .DeviceGray ∨ color.GetColorSpace = .DeviceRGB ∨
        color.GetColorSpace = .DeviceCMYK) := by
  unfold PdfColorSpaceFilterSeparation.PdfColorSpaceFilterSeparation at h
  split at h
  · rename_i hcs
    exact ⟨(Except.ok.inj h).symm, Or.inl hcs⟩
  · rename_i hcs
    exact ⟨(Except.ok.inj h).symm, Or.inr (Or.inl hcs)⟩
  · rename_i hcs
    exact ⟨(Except.ok.inj h).symm, Or.inr (Or.inr hcs)⟩
  · cases h

/-- C17: the constructor of the separation filter, given a colorant name and an
alternate color, succeeds (with the filter that holds them) if and only if the
color-space tag of the color is DeviceGray, DeviceRGB or DeviceCMYK, and raises
CannotConvertColor for every other tag; every filter it returns has an alternate
color in one of the three device spaces. -/
theorem C17_separation_constructor_validates_alternate (name : String) (color : PdfColor) :
    (((color.GetColorSpace = .DeviceGray ∨ color.GetColorSpace = .DeviceRGB ∨
          color.GetColorSpace = .DeviceCMYK) ∧
        PdfColorSpaceFilterSeparation.PdfColorSpaceFilterSeparation name color =
          .ok (.Separation name color)) ∨
      (¬ (color.GetColorSpace = .DeviceGray ∨ color.GetColorSpace = .DeviceRGB ∨
          color.GetColorSpace = .DeviceCMYK) ∧
        PdfColorSpaceFilterSeparation.PdfColorSpaceFilterSeparation name color =
          .error (.PdfError .CannotConvertColor
            "Unsupported color space for color space separation"))) ∧
    ∀ f, PdfColorSpaceFilterSeparation.PdfColorSpaceFilterSeparation name color = .ok f →
      f = .Separation name color ∧
        (color.GetColorSpace = .DeviceGray ∨ color.GetColorSpace = .DeviceRGB ∨
          color.GetColorSpace = .DeviceCMYK) := by
  refine ⟨?_, fun f h => Separation_ctor_ok name color f h⟩
  unfold PdfColorSpaceFilterSeparation.PdfColorSpaceFilterSeparation
  cases hcs : color.GetColorSpace with
  | DeviceGray => exact Or.inl ⟨Or.inl rfl, rfl⟩
  | DeviceRGB => exact Or.inl ⟨Or.inr (Or.inl rfl), rfl⟩
  | DeviceCMYK => exact Or.inl ⟨Or.inr (Or.inr rfl), rfl⟩
  | Unknown => exact Or.inr ⟨by simp, rfl⟩
  | Indexed => exact Or.inr ⟨by simp, rfl⟩
  | Separation => exact Or.inr ⟨by simp, rfl⟩
  | Lab => exact Or.inr ⟨by simp, rfl⟩
  | Other tag => exact Or.inr ⟨by simp, rfl⟩


/-- C18 on the code: for a separation filter whose alternate color is gray (one
component) the Decode entry of the exported tint function is [0,1] four times, 8
elements, while its Range entry is [0,1] once. The claim says Decode has 2 elements. -/
theorem C18_decode_of_gray_separation_has_eight_elements (dmul : Rat → Rat → Rat) :
    ∃ dict stream,
      ((PdfColorSpaceFilter.Separation "Spot" ⟨.DeviceGray, [1 / 2]⟩).GetExportObject dmul
        []).2 = [.Dictionary dict stream] ∧
      PdfDictionary.FindKey "Decode" dict =
        some (.Array [.Number 0, .Number 1, .Number 0, .Number 1,
          .Number 0, .Number 1, .Number 0, .Number 1]) ∧
      PdfDictionary.FindKey "Range" dict = some (.Array [.Number 0, .Number 1]) := by
  have key := Separation_export_gray dmul "Spot" ⟨.DeviceGray, [1 / 2]⟩ [] rfl
  exact ⟨_, _, congrArg Prod.snd key, by simp [PdfDictionary.FindKey],
    by simp [PdfDictionary.FindKey]⟩

/-- C19: for every separation filter that the constructor returns, with colorant name
s and an alternate color in the space A of n components, GetExportObject raises
nothing, appends exactly one object to the object list, whose dictionary has
FunctionType 0, Domain [0,1], Encode [0,1], BitsPerSample 8, Size [2], Filter
/FlateDecode and Range [0,1] n times, and returns the array [/Separation, /s, /A,
reference to that object]. -/
theorem C19_separation_export (dmul : Rat → Rat → Rat) (name : String) (color : PdfColor)
    (objects : PdfIndirectObjectList) (f : PdfColorSpaceFilter)
    (hctor : PdfColorSpaceFilterSeparation.PdfColorSpaceFilterSeparation name color = .ok f) :
    ∃ altName n dict stream,
      ((color.GetColorSpace = .DeviceGray ∧ altName = "DeviceGray" ∧ n = 1) ∨
        (color.GetColorSpace = .DeviceRGB ∧ altName = "DeviceRGB" ∧ n = 3) ∨
        (color.GetColorSpace = .DeviceCMYK ∧ altName = "DeviceCMYK" ∧ n = 4)) ∧
      f.GetExportObject dmul objects =
        (.ok (.Array [.Name "Separation", .Name name, .Name altName,
          .Reference (objects.length + 1) 0]),
          objects ++ [.Dictionary dict stream]) ∧
      PdfDictionary.FindKey "FunctionType" dict = some (.Number 0) ∧
      PdfDictionary.FindKey "Domain" dict = some (.Array [.Number 0, .Number 1]) ∧
      PdfDictionary.FindKey "Encode" dict = some (.Array [.Number 0, .Number 1]) ∧
      PdfDictionary.FindKey "BitsPerSample" dict = some (.Number 8) ∧
      PdfDictionary.FindKey "Size" dict = some (.Array [.Number 2]) ∧
      PdfDictionary.FindKey "Filter" dict = some (.Name "FlateDecode") ∧
      PdfDictionary.FindKey "Range" dict =
        some (.Array (List.replicate n [PdfObject.Number 0, PdfObject.Number 1]).flatten) := by
  obtain ⟨hf, hcs⟩ := Separation_ctor_ok name color f hctor
  subst hf
  rcases hcs with h | h | h
  · refine ⟨"DeviceGray", 1, _, _, Or.inl ⟨h, rfl, rfl⟩,
      Separation_export_gray dmul name color objects h, ?_, ?_, ?_, ?_, ?_, ?_, ?_⟩ <;>
      simp [PdfDictionary.FindKey]
  · refine ⟨"DeviceRGB", 3, _, _, Or.inr (Or.inl ⟨h, rfl, rfl⟩),
      Separation_export_rgb dmul name color objects h, ?_, ?_, ?_, ?_, ?_, ?_, ?_⟩ <;>
      simp [PdfDictionary.FindKey]
  · refine ⟨"DeviceCMYK", 4, _, _, Or.inr (Or.inr ⟨h, rfl, rfl⟩),
      Separation_export_cmyk dmul name color objects h, ?_, ?_, ?_, ?_, ?_, ?_, ?_⟩ <;>
      simp [PdfDictionary.FindKey]


/-- The byte that `static_cast<char>` stores for a value in the range of a byte: its
integer part. -/
theorem doubleToChar_of_nonneg (x : Rat) (h0 : 0 ≤ x) (h1 : x < 256) :
    doubleToChar x = UInt8.ofNat ⌊x⌋₊ := by
  unfold doubleToChar truncate
  rw [if_pos h0, ← Int.natCast_floor_eq_floor h0]
  have hlt : ⌊x⌋₊ < 256 := (Nat.floor_lt h0).2 (by exact_mod_cast h1)
  have hmod : (((⌊x⌋₊ : ℕ) : ℤ) % 256).toNat = ⌊x⌋₊ := by omega
  rw [hmod]

/-- The scaled component of a color in [0,1] is in [0,255], for a product that is
monotone and exact at 0 and 1. -/
theorem dmul_bounds (dmul : Rat → Rat → Rat)
    (hmono : ∀ x y : Rat, x ≤ y → dmul x 255 ≤ dmul y 255)
    (hzero : dmul 0 255 = 0) (hone : dmul 1 255 = 255) (x : Rat) (h : 0 ≤ x ∧ x ≤ 1) :
    0 ≤ dmul x 255 ∧ dmul x 255 < 256 := by
  have h1 := hmono 0 x h.1
  have h2 := hmono x 1 h.2
  rw [hzero] at h1
  rw [hone] at h2
  exact ⟨h1, lt_of_le_of_lt h2 (by norm_num)⟩

/-- C20: for every separation filter whose alternate color has N components with
values in [0,1], the sample stream that GetExportObject attaches to the new object
has 2N bytes: N zero bytes, then for DeviceGray the integer part of the gray value,
not scaled (0 for gray 0.5, 1 for gray 1), and for DeviceRGB and DeviceCMYK the
integer part of component*255 for each component; CreateSeparationNone exports 8
zero bytes and CreateSeparationAll exports 0,0,0,0,255,255,255,255. The product
component*255 is the product of doubles dmul, taken monotone and exact at 0 and 1. -/
theorem C20_separation_sample_stream (dmul : Rat → Rat → Rat) (name : String)
    (objects : PdfIndirectObjectList) (g r gr b c m y k : Rat)
    (hmono : ∀ x y : Rat, x ≤ y → dmul x 255 ≤ dmul y 255)
    (hzero : dmul 0 255 = 0) (hone : dmul 1 255 = 255)
    (hg : 0 ≤ g ∧ g ≤ 1)
    (hrgb : (0 ≤ r ∧ r ≤ 1) ∧ (0 ≤ gr ∧ gr ≤ 1) ∧ (0 ≤ b ∧ b ≤ 1))
    (hcmyk : (0 ≤ c ∧ c ≤ 1) ∧ (0 ≤ m ∧ m ≤ 1) ∧ (0 ≤ y ∧ y ≤ 1) ∧ (0 ≤ k ∧ k ≤ 1)) :
    (∃ dict, ((PdfColorSpaceFilter.Separation name ⟨.DeviceGray, [g]⟩).GetExportObject dmul
        objects).2 = objects ++ [.Dictionary dict (some [0, UInt8.ofNat ⌊(g : ℚ)⌋₊])]) ∧
      (∃ dict, ((PdfColorSpaceFilter.Separation name ⟨.DeviceRGB, [r, gr, b]⟩).GetExportObject
        dmul objects).2 = objects ++ [.Dictionary dict (some [0, 0, 0,
          UInt8.ofNat ⌊dmul r 255⌋₊, UInt8.ofNat ⌊dmul gr 255⌋₊,
          UInt8.ofNat ⌊dmul b 255⌋₊])]) ∧
      (∃ dict, ((PdfColorSpaceFilter.Separation name ⟨.DeviceCMYK, [c, m, y, k]⟩).GetExportObject
        dmul objects).2 = objects ++ [.Dictionary dict (some [0, 0, 0, 0,
          UInt8.ofNat ⌊dmul c 255⌋₊, UInt8.ofNat ⌊dmul m 255⌋₊,
          UInt8.ofNat ⌊dmul y 255⌋₊, UInt8.ofNat ⌊dmul k 255⌋₊])]) ∧
      (∃ dict, ((PdfColorSpaceFilter.Separation name ⟨.DeviceGray, [1 / 2]⟩).GetExportObject
        dmul objects).2 = objects ++ [.Dictionary dict (some [0, 0])]) ∧
      (∃ dict, ((PdfColorSpaceFilter.Separation name ⟨.DeviceGray, [1]⟩).GetExportObject
        dmul objects).2 = objects ++ [.Dictionary dict (some [0, 1])]) ∧
      (∃ f dict, PdfColorSpaceFilterSeparation.CreateSeparationNone = .ok f ∧
        (f.GetExportObject dmul objects).2 =
          objects ++ [.Dictionary dict (some [0, 0, 0, 0, 0, 0, 0, 0])]) ∧
      (∃ f dict, PdfColorSpaceFilterSeparation.CreateSeparationAll = .ok f ∧
        (f.GetExportObject dmul objects).2 =
          objects ++ [.Dictionary dict (some [0, 0, 0, 0, 255, 255, 255, 255])]) := by
  have hbyte : ∀ x : Rat, 0 ≤ x ∧ x ≤ 1 →
      doubleToChar (dmul x 255) = UInt8.ofNat ⌊dmul x 255⌋₊ := fun x hx =>
    doubleToChar_of_nonneg _ (dmul_bounds dmul hmono hzero hone x hx).1
      (dmul_bounds dmul hmono hzero hone x hx).2
  have hgray : ∀ v : Rat, 0 ≤ v → v ≤ 1 →
      ∃ dict, ((PdfColorSpaceFilter.Separation name ⟨.DeviceGray, [v]⟩).GetExportObject dmul
        objects).2 = objects ++ [.Dictionary dict (some [0, UInt8.ofNat ⌊v⌋₊])] := by
    intro v hv0 hv1
    have key := Separation_export_gray dmul name ⟨.DeviceGray, [v]⟩ objects rfl
    have hv : doubleToChar (PdfColor.GetGrayScale ⟨.DeviceGray, [v]⟩) = UInt8.ofNat ⌊v⌋₊ :=
      doubleToChar_of_nonneg v hv0 (lt_of_le_of_lt hv1 (by norm_num))
    rw [hv] at key
    exact ⟨_, congrArg Prod.snd key⟩
  have hcmykAll : ∀ (nm : String) (v : Rat), 0 ≤ v ∧ v ≤ 1 →
      ∃ dict, ((PdfColorSpaceFilter.Separation nm ⟨.DeviceCMYK, [v, v, v, v]⟩).GetExportObject
        dmul objects).2 = objects ++ [.Dictionary dict (some [0, 0, 0, 0,
          UInt8.ofNat ⌊dmul v 255⌋₊, UInt8.ofNat ⌊dmul v 255⌋₊,
          UInt8.ofNat ⌊dmul v 255⌋₊, UInt8.ofNat ⌊dmul v 255⌋₊])] := by
    intro nm v hv
    have key := Separation_export_cmyk dmul nm ⟨.DeviceCMYK, [v, v, v, v]⟩ objects rfl
    have e := hbyte v hv
    simp only [PdfColor.GetCyan, PdfColor.GetMagenta, PdfColor.GetYellow, PdfColor.GetBlack,
      List.getD_cons_zero, List.getD_cons_succ, e] at key
    exact ⟨_, congrArg Prod.snd key⟩
  refine ⟨hgray g hg.1 hg.2, ?_, ?_, ?_, ?_, ?_, ?_⟩
  · have key := Separation_export_rgb dmul name ⟨.DeviceRGB, [r, gr, b]⟩ objects rfl
    have e1 := hbyte r hrgb.1
    have e2 := hbyte gr hrgb.2.1
    have e3 := hbyte b hrgb.2.2
    simp only [PdfColor.GetRed, PdfColor.GetGreen, PdfColor.GetBlue,
      List.getD_cons_zero, List.getD_cons_succ, e1, e2, e3] at key
    exact ⟨_, congrArg Prod.snd key⟩
  · have key := Separation_export_cmyk dmul name ⟨.DeviceCMYK, [c, m, y, k]⟩ objects rfl
    have e1 := hbyte c hcmyk.1
    have e2 := hbyte m hcmyk.2.1
    have e3 := hbyte y hcmyk.2.2.1
    have e4 := hbyte k hcmyk.2.2.2
    simp only [PdfColor.GetCyan, PdfColor.GetMagenta, PdfColor.GetYellow, PdfColor.GetBlack,
      List.getD_cons_zero, List.getD_cons_succ, e1, e2, e3, e4] at key
    exact ⟨_, congrArg Prod.snd key⟩
  · have h := hgray (1 / 2) (by norm_num) (by norm_num)
    have hfloor : ⌊(1 / 2 : ℚ)⌋₊ = 0 := by
      rw [Nat.floor_eq_zero]
      norm_num
    rw [hfloor] at h
    exact h
  · have h := hgray 1 (by norm_num) (by norm_num)
    have hfloor : ⌊(1 : ℚ)⌋₊ = 1 := Nat.floor_one
    rw [hfloor] at h
    exact h
  · obtain ⟨dict, h⟩ := hcmykAll "None" 0 ⟨le_refl 0, by norm_num⟩
    have hfloor : ⌊(0 : ℚ)⌋₊ = 0 := Nat.floor_zero
    rw [hzero, hfloor] at h
    exact ⟨_, dict, rfl, h⟩
  · obtain ⟨dict, h⟩ := hcmykAll "All" 1 ⟨by norm_num, le_refl 1⟩
    have hfloor : ⌊(255 : ℚ)⌋₊ = 255 := Nat.floor_ofNat 255
    rw [hone, hfloor] at h
    exact ⟨_, dict, rfl, h⟩


/-- Witness of C20: the exact product for dmul, gray 1/2, RGB (1, 1/2, 0) and CMYK
(0, 1/2, 1, 1/4), an empty object list. -/
theorem C20_separation_sample_stream_witness :
    ((∀ x y : Rat, x ≤ y → (fun x y : Rat => x * y) x 255 ≤ (fun x y : Rat => x * y) y 255) ∧
      (fun x y : Rat => x * y) 0 255 = 0 ∧ (fun x y : Rat => x * y) 1 255 = 255 ∧
      ((0 : Rat) ≤ 1 / 2 ∧ (1 / 2 : Rat) ≤ 1) ∧
      (((0 : Rat) ≤ 1 ∧ (1 : Rat) ≤ 1) ∧ ((0 : Rat) ≤ 1 / 2 ∧ (1 / 2 : Rat) ≤ 1) ∧
        ((0 : Rat) ≤ 0 ∧ (0 : Rat) ≤ 1)) ∧
      (((0 : Rat) ≤ 0 ∧ (0 : Rat) ≤ 1) ∧ ((0 : Rat) ≤ 1 / 2 ∧ (1 / 2 : Rat) ≤ 1) ∧
        ((0 : Rat) ≤ 1 ∧ (1 : Rat) ≤ 1) ∧ ((0 : Rat) ≤ 1 / 4 ∧ (1 / 4 : Rat) ≤ 1))) ∧
    (
    (∃ dict, ((PdfColorSpaceFilter.Separation "Spot" ⟨.DeviceGray, [(1 / 2)]⟩).GetExportObject (fun x y : Rat => x * y)
        ([] : PdfIndirectObjectList)).2 = ([] : PdfIndirectObjectList) ++ [.Dictionary dict (some [0, UInt8.ofNat ⌊((1 / 2) : ℚ)⌋₊])]) ∧
      (∃ dict, ((PdfColorSpaceFilter.Separation "Spot" ⟨.DeviceRGB, [1, (1 / 2), 0]⟩).GetExportObject
        (fun x y : Rat => x * y) ([] : PdfIndirectObjectList)).2 = ([] : PdfIndirectObjectList) ++ [.Dictionary dict (some [0, 0, 0,
          UInt8.ofNat ⌊(fun x y : Rat => x * y) 1 255⌋₊, UInt8.ofNat ⌊(fun x y : Rat => x * y) (1 / 2) 255⌋₊,
          UInt8.ofNat ⌊(fun x y : Rat => x * y) 0 255⌋₊])]) ∧
      (∃ dict, ((PdfColorSpaceFilter.Separation "Spot" ⟨.DeviceCMYK, [0, (1 / 2), 1, (1 / 4)]⟩).GetExportObject
        (fun x y : Rat => x * y) ([] : PdfIndirectObjectList)).2 = ([] : PdfIndirectObjectList) ++ [.Dictionary dict (some [0, 0, 0, 0,
          UInt8.ofNat ⌊(fun x y : Rat => x * y) 0 255⌋₊, UInt8.ofNat ⌊(fun x y : Rat => x * y) (1 / 2) 255⌋₊,
          UInt8.ofNat ⌊(fun x y : Rat => x * y) 1 255⌋₊, UInt8.ofNat ⌊(fun x y : Rat => x * y) (1 / 4) 255⌋₊])]) ∧
      (∃ dict, ((PdfColorSpaceFilter.Separation "Spot" ⟨.DeviceGray, [1 / 2]⟩).GetExportObject
        (fun x y : Rat => x * y) ([] : PdfIndirectObjectList)).2 = ([] : PdfIndirectObjectList) ++ [.Dictionary dict (some [0, 0])]) ∧
      (∃ dict, ((PdfColorSpaceFilter.Separation "Spot" ⟨.DeviceGray, [1]⟩).GetExportObject
        (fun x y : Rat => x * y) ([] : PdfIndirectObjectList)).2 = ([] : PdfIndirectObjectList) ++ [.Dictionary dict (some [0, 1])]) ∧
      (∃ f dict, PdfColorSpaceFilterSeparation.CreateSeparationNone = .ok f ∧
        (f.GetExportObject (fun x y : Rat => x * y) ([] : PdfIndirectObjectList)).2 =
          ([] : PdfIndirectObjectList) ++ [.Dictionary dict (some [0, 0, 0, 0, 0, 0, 0, 0])]) ∧
      (∃ f dict, PdfColorSpaceFilterSeparation.CreateSeparationAll = .ok f ∧
        (f.GetExportObject (fun x y : Rat => x * y) ([] : PdfIndirectObjectList)).2 =
          ([] : PdfIndirectObjectList) ++ [.Dictionary dict (some [0, 0, 0, 0, 255, 255, 255, 255])])) :=
  ⟨⟨fun x y h => mul_le_mul_of_nonneg_right h (by norm_num), by norm_num, by norm_num,
      ⟨by norm_num, by norm_num⟩,
      ⟨⟨by norm_num, by norm_num⟩, ⟨by norm_num, by norm_num⟩, ⟨by norm_num, by norm_num⟩⟩,
      ⟨⟨by norm_num, by norm_num⟩, ⟨by norm_num, by norm_num⟩, ⟨by norm_num, by norm_num⟩,
        ⟨by norm_num, by norm_num⟩⟩⟩,
    C20_separation_sample_stream (fun x y : Rat => x * y) "Spot" [] (1 / 2) 1 (1 / 2) 0 0
      (1 / 2) 1 (1 / 4) (fun x y h => mul_le_mul_of_nonneg_right h (by norm_num))
      (by norm_num) (by norm_num) ⟨by norm_num, by norm_num⟩
      ⟨⟨by norm_num, by norm_num⟩, ⟨by norm_num, by norm_num⟩, ⟨by norm_num, by norm_num⟩⟩
      ⟨⟨by norm_num, by norm_num⟩, ⟨by norm_num, by norm_num⟩, ⟨by norm_num, by norm_num⟩,
        ⟨by norm_num, by norm_num⟩⟩⟩

/-- Witness of C19: the colorant "Spot" over gray 1/2, an empty object list. -/
theorem C19_separation_export_witness :
    PdfColorSpaceFilterSeparation.PdfColorSpaceFilterSeparation "Spot" ⟨.DeviceGray, [1 / 2]⟩ =
        .ok (.Separation "Spot" ⟨.DeviceGray, [1 / 2]⟩) ∧
    ∃ altName n dict stream,
      (((⟨.DeviceGray, [1 / 2]⟩ : PdfColor).GetColorSpace = .DeviceGray ∧
          altName = "DeviceGray" ∧ n = 1) ∨
        ((⟨.DeviceGray, [1 / 2]⟩ : PdfColor).GetColorSpace = .DeviceRGB ∧
          altName = "DeviceRGB" ∧ n = 3) ∨
        ((⟨.DeviceGray, [1 / 2]⟩ : PdfColor).GetColorSpace = .DeviceCMYK ∧
          altName = "DeviceCMYK" ∧ n = 4)) ∧
      (PdfColorSpaceFilter.Separation "Spot" ⟨.DeviceGray, [1 / 2]⟩).GetExportObject
          (fun x y : Rat => x * y) [] =
        (.ok (.Array [.Name "Separation", .Name "Spot", .Name altName,
          .Reference (([] : PdfIndirectObjectList).length + 1) 0]),
          [] ++ [.Dictionary dict stream]) ∧
      PdfDictionary.FindKey "FunctionType" dict = some (.Number 0) ∧
      PdfDictionary.FindKey "Domain" dict = some (.Array [.Number 0, .Number 1]) ∧
      PdfDictionary.FindKey "Encode" dict = some (.Array [.Number 0, .Number 1]) ∧
      PdfDictionary.FindKey "BitsPerSample" dict = some (.Number 8) ∧
      PdfDictionary.FindKey "Size" dict = some (.Array [.Number 2]) ∧
      PdfDictionary.FindKey "Filter" dict = some (.Name "FlateDecode") ∧
      PdfDictionary.FindKey "Range" dict =
        some (.Array (List.replicate n [PdfObject.Number 0, PdfObject.Number 1]).flatten) :=
  ⟨rfl, C19_separation_export (fun x y : Rat => x * y) "Spot" ⟨.DeviceGray, [1 / 2]⟩ []
    (.Separation "Spot" ⟨.DeviceGray, [1 / 2]⟩) rfl⟩

/-- The second component of the result of the Indexed export is that of the export of
the base. -/
theorem export_match_snd (r : Except Failure PdfObject × PdfIndirectObjectList)
    (g : PdfObject → PdfObject) :
    (match r with
      | (.error e, objects2) => ((.error e : Except Failure PdfObject), objects2)
      | (.ok baseObj, objects2) => (.ok (g baseObj), objects2)).2 = r.2 := by
  rcases r with ⟨_ | _, _⟩ <;> rfl

/-- What `GetExportObject` of an Indexed filter does, in terms of the export of its
base. -/
theorem Indexed_export_eq (dmul : Rat → Rat → Rat) (baseAddr mapSize : Nat)
    (base : PdfColorSpaceFilter) (lookup : charbuff) (objects : PdfIndirectObjectList) :
    (PdfColorSpaceFilter.Indexed baseAddr base mapSize lookup).GetExportObject dmul objects =
      match base.GetExportObject dmul (objects ++ [.Dictionary [] (some lookup)]) with
      | (.error e, objects2) => (.error e, objects2)
      | (.ok baseObj, objects2) =>
          (.ok (.Array [.Name "Indexed", baseObj, .Number (usub mapSize 1),
            .Reference (objects.length + 1) 0]), objects2) := by
  simp only [PdfColorSpaceFilter.GetExportObject, PdfIndirectObjectList.CreateDictionaryObject,
    updateObject_last, PdfObject.SetData]

/-- The export of the Lab filter appends one object to the list. -/
theorem Lab_export_appends (whitePoint blackPoint range : List Rat)
    (objects : PdfIndirectObjectList) :
    ∃ obj, (PdfColorSpaceFilterLab.GetExportObject whitePoint blackPoint range objects).2 =
      objects ++ [obj] := by
  simp only [PdfColorSpaceFilterLab.GetExportObject,
    PdfIndirectObjectList.CreateDictionaryObject, updateObject_last]
  split_ifs <;> (try simp only [updateObject_last]) <;> exact ⟨_, rfl⟩

/-- `GetExportObject` only appends objects to the list. -/
theorem export_appends (dmul : Rat → Rat → Rat) (f : PdfColorSpaceFilter) :
    ∀ objects : PdfIndirectObjectList,
      ∃ more, (f.GetExportObject dmul objects).2 = objects ++ more := by
  induction f with
  | DeviceGray => exact fun objects => ⟨[], (List.append_nil objects).symm⟩
  | DeviceRGB => exact fun objects => ⟨[], (List.append_nil objects).symm⟩
  | DeviceCMYK => exact fun objects => ⟨[], (List.append_nil objects).symm⟩
  | Unknown => exact fun objects => ⟨[], (List.append_nil objects).symm⟩
  | Indexed baseAddr base mapSize lookup ih =>
    intro objects
    obtain ⟨more, hmore⟩ := ih (objects ++ [.Dictionary [] (some lookup)])
    refine ⟨.Dictionary [] (some lookup) :: more, ?_⟩
    rw [Indexed_export_eq, export_match_snd _ (fun baseObj => .Array [.Name "Indexed", baseObj,
      .Number (usub mapSize 1), .Reference (objects.length + 1) 0]), hmore]
    simp
  | Separation name color =>
    intro objects
    show ∃ more, (PdfColorSpaceFilterSeparation.GetExportObject dmul name color objects).2 =
      objects ++ more
    cases hcs : color.GetColorSpace with
    | DeviceGray => exact ⟨_, congrArg Prod.snd (Separation_export_gray dmul name color objects hcs)⟩
    | DeviceRGB => exact ⟨_, congrArg Prod.snd (Separation_export_rgb dmul name color objects hcs)⟩
    | DeviceCMYK =>
      exact ⟨_, congrArg Prod.snd (Separation_export_cmyk dmul name color objects hcs)⟩
    | Unknown =>
      simp only [PdfColorSpaceFilterSeparation.GetExportObject, hcs, createTintFunc_eq]
      exact ⟨_, rfl⟩
    | Indexed =>
      simp only [PdfColorSpaceFilterSeparation.GetExportObject, hcs, createTintFunc_eq]
      exact ⟨_, rfl⟩
    | Separation =>
      simp only [PdfColorSpaceFilterSeparation.GetExportObject, hcs, createTintFunc_eq]
      exact ⟨_, rfl⟩
    | Lab =>
      simp only [PdfColorSpaceFilterSeparation.GetExportObject, hcs, createTintFunc_eq]
      exact ⟨_, rfl⟩
    | Other tag =>
      simp only [PdfColorSpaceFilterSeparation.GetExportObject, hcs, createTintFunc_eq]
      exact ⟨_, rfl⟩
  | Lab whitePoint blackPoint range =>
    intro objects
    obtain ⟨obj, h⟩ := Lab_export_appends whitePoint blackPoint range objects
    exact ⟨[obj], h⟩


/-- C16: for every Indexed filter with base B, palette size MapSize and lookup L,
GetExportObject appends one new object, whose stream data is exactly L, to the
object list, then exports B into the list (which only appends further objects, none
for a device base), and, when the export of B returns, returns the array [/Indexed,
what the export of B returned, MapSize - 1, reference to the new object]; the third
entry is computed on unsigned and is MapSize - 1 for every MapSize >= 1. -/
theorem C16_indexed_export (dmul : Rat → Rat → Rat) (baseAddr mapSize : Nat)
    (base : PdfColorSpaceFilter) (lookup : charbuff) (objects objects2 : PdfIndirectObjectList)
    (baseObj : PdfObject)
    (hbase : base.GetExportObject dmul (objects ++ [.Dictionary [] (some lookup)]) =
      (.ok baseObj, objects2)) :
    (PdfColorSpaceFilter.Indexed baseAddr base mapSize lookup).GetExportObject dmul objects =
        (.ok (.Array [.Name "Indexed", baseObj, .Number (usub mapSize 1),
          .Reference (objects.length + 1) 0]), objects2) ∧
      (∃ more, objects2 = objects ++ [.Dictionary [] (some lookup)] ++ more) ∧
      (base = .DeviceGray ∨ base = .DeviceRGB ∨ base = .DeviceCMYK →
        objects2 = objects ++ [.Dictionary [] (some lookup)]) ∧
      (1 ≤ mapSize → mapSize < 4294967296 →
        ((usub mapSize 1 : Nat) : Int) = (mapSize : Int) - 1) := by
  refine ⟨?_, ?_, ?_, ?_⟩
  · rw [Indexed_export_eq, hbase]
  · obtain ⟨more, hmore⟩ := export_appends dmul base (objects ++ [.Dictionary [] (some lookup)])
    rw [hbase] at hmore
    exact ⟨more, hmore⟩
  · intro hdev
    rcases hdev with h | h | h <;> subst h <;>
      simp only [PdfColorSpaceFilter.GetExportObject, Prod.mk.injEq] at hbase <;>
      exact hbase.2.symm
  · intro h1 h2
    unfold usub UINT_SIZE
    omega

/-- Witness of C16: a palette of one entry over DeviceRGB, exported into an empty
object list. -/
theorem C16_indexed_export_witness :
    PdfColorSpaceFilter.DeviceRGB.GetExportObject (fun x y : Rat => x * y)
        (([] : PdfIndirectObjectList) ++ [.Dictionary [] (some [1, 2, 3])]) =
      (.ok (.Name "DeviceRGB"), [.Dictionary [] (some [1, 2, 3])]) ∧
    ((PdfColorSpaceFilter.Indexed 0 .DeviceRGB 1 [1, 2, 3]).GetExportObject
        (fun x y : Rat => x * y) [] =
        (.ok (.Array [.Name "Indexed", .Name "DeviceRGB", .Number (usub 1 1),
          .Reference (([] : PdfIndirectObjectList).length + 1) 0]),
          [.Dictionary [] (some [1, 2, 3])]) ∧
      (∃ more, ([.Dictionary [] (some [1, 2, 3])] : PdfIndirectObjectList) =
        [] ++ [.Dictionary [] (some [1, 2, 3])] ++ more) ∧
      (PdfColorSpaceFilter.DeviceRGB = .DeviceGray ∨
          PdfColorSpaceFilter.DeviceRGB = .DeviceRGB ∨
          PdfColorSpaceFilter.DeviceRGB = .DeviceCMYK →
        ([.Dictionary [] (some [1, 2, 3])] : PdfIndirectObjectList) =
          [] ++ [.Dictionary [] (some [1, 2, 3])]) ∧
      (1 ≤ 1 → 1 < 4294967296 → ((usub 1 1 : Nat) : Int) = ((1 : Nat) : Int) - 1)) :=
  ⟨rfl, C16_indexed_export (fun x y : Rat => x * y) 0 1 .DeviceRGB [1, 2, 3] []
    [.Dictionary [] (some [1, 2, 3])] (.Name "DeviceRGB") rfl⟩


/-- The object created last is found under its object number. -/
theorem GetObject_last (objects : PdfIndirectObjectList) (obj : PdfObject) :
    PdfIndirectObjectList.GetObject (objects.length + 1) (objects ++ [obj]) = obj := by
  simp [PdfIndirectObjectList.GetObject, List.getD_eq_getElem?_getD]

/-- The export of a Lab filter: the returned array holds the dictionary of the new
object, built from the white point, then the black point and the range when they
differ from the defaults. -/
theorem Lab_export_eq (whitePoint blackPoint range : List Rat)
    (objects : PdfIndirectObjectList) :
    (PdfColorSpaceFilterLab.GetExportObject whitePoint blackPoint range objects).1 =
      .ok (.Array [.Name "Lab", .Dictionary
        ((fun d => if range ≠ [-100, 100, -100, 100] then
            PdfDictionary.AddKey "Range" (.Array [.Real (range.getD 0 0),
              .Real (range.getD 1 0), .Real (range.getD 2 0), .Real (range.getD 3 0)]) d
          else d)
          ((fun d => if blackPoint ≠ [0, 0, 0] then
              PdfDictionary.AddKey "BlackPoint" (.Array [.Real (blackPoint.getD 0 0),
                .Real (blackPoint.getD 1 0), .Real (blackPoint.getD 2 0)]) d
            else d)
            [("WhitePoint", .Array [.Real (whitePoint.getD 0 0),
              .Real (whitePoint.getD 1 0), .Real (whitePoint.getD 2 0)])])) none]) := by
  simp only [PdfColorSpaceFilterLab.GetExportObject,
    PdfIndirectObjectList.CreateDictionaryObject, updateObject_last]
  split_ifs <;>
    simp only [updateObject_last, GetObject_last, PdfObject.AddKey, PdfObject.GetDictionary,
      PdfDictionary.AddKey]


/-- C21: for every Lab filter built from a white point w, an optional black point b
and an optional range r, GetExportObject returns the array [/Lab, dict], where dict
has WhitePoint = [w0,w1,w2], has the key BlackPoint, with value [b0,b1,b2], if and
only if b was given and is not [0,0,0], and has the key Range, with value
[r0,r1,r2,r3], if and only if r was given and is not [-100,100,-100,100]; leaving an
argument out and passing its default give the same export. -/
theorem C21_lab_export (dmul : Rat → Rat → Rat) (objects : PdfIndirectObjectList)
    (w0 w1 w2 : Rat) (b : Option (Rat × Rat × Rat)) (r : Option (Rat × Rat × Rat × Rat)) :
    (∃ dict,
      ((PdfColorSpaceFilterLab.PdfColorSpaceFilterLab [w0, w1, w2]
          (b.map (fun t => [t.1, t.2.1, t.2.2]))
          (r.map (fun t => [t.1, t.2.1, t.2.2.1, t.2.2.2]))).GetExportObject dmul objects).1 =
        .ok (.Array [.Name "Lab", .Dictionary dict none]) ∧
      PdfDictionary.FindKey "WhitePoint" dict =
        some (.Array [.Real w0, .Real w1, .Real w2]) ∧
      PdfDictionary.FindKey "BlackPoint" dict =
        (match b with
          | none => none
          | some t =>
            if t = (0, 0, 0) then none
            else some (.Array [.Real t.1, .Real t.2.1, .Real t.2.2])) ∧
      PdfDictionary.FindKey "Range" dict =
        (match r with
          | none => none
          | some t =>
            if t = (-100, 100, -100, 100) then none
            else some (.Array [.Real t.1, .Real t.2.1, .Real t.2.2.1, .Real t.2.2.2]))) ∧
    (PdfColorSpaceFilterLab.PdfColorSpaceFilterLab [w0, w1, w2] none
        (r.map (fun t => [t.1, t.2.1, t.2.2.1, t.2.2.2]))).GetExportObject dmul objects =
      (PdfColorSpaceFilterLab.PdfColorSpaceFilterLab [w0, w1, w2] (some [0, 0, 0])
        (r.map (fun t => [t.1, t.2.1, t.2.2.1, t.2.2.2]))).GetExportObject dmul objects ∧
    (PdfColorSpaceFilterLab.PdfColorSpaceFilterLab [w0, w1, w2]
        (b.map (fun t => [t.1, t.2.1, t.2.2])) none).GetExportObject dmul objects =
      (PdfColorSpaceFilterLab.PdfColorSpaceFilterLab [w0, w1, w2]
        (b.map (fun t => [t.1, t.2.1, t.2.2]))
        (some [-100, 100, -100, 100])).GetExportObject dmul objects := by
  refine ⟨?_, rfl, rfl⟩
  refine ⟨_, Lab_export_eq _ _ _ objects, ?_, ?_, ?_⟩
  · rcases b with _ | ⟨b0, b1, b2⟩ <;> rcases r with _ | ⟨r0, r1, r2, r3⟩ <;>
      simp only [Option.map] <;> split_ifs <;>
      simp [PdfDictionary.FindKey, PdfDictionary.AddKey]
  · rcases b with _ | ⟨b0, b1, b2⟩ <;> rcases r with _ | ⟨r0, r1, r2, r3⟩ <;>
      simp only [Option.map, PdfColorSpaceFilterLab.PdfColorSpaceFilterLab] <;> split_ifs <;>
      simp_all [PdfDictionary.FindKey, PdfDictionary.AddKey]
  · rcases b with _ | ⟨b0, b1, b2⟩ <;> rcases r with _ | ⟨r0, r1, r2, r3⟩ <;>
      simp only [Option.map, PdfColorSpaceFilterLab.PdfColorSpaceFilterLab] <;> split_ifs <;>
      simp_all [PdfDictionary.FindKey, PdfDictionary.AddKey]


/-- What the factory does on a non-empty array, by its first element, when that is
not the name of an /Indexed array of at least four elements. -/
theorem TryCreateFromObject_Array_head (unset : Int) (e0 : PdfObject) (rest : List PdfObject)
    (colorSpace : PdfColorSpaceFilterPtr) (rt : Runtime) :
    (e0.TryGetName = none →
        TryCreateFromObject unset (.Array (e0 :: rest)) colorSpace rt =
          (.ok (false, colorSpace), rt)) ∧
      (∀ name, e0.TryGetName = some name → TryConvertTo name = none →
        TryCreateFromObject unset (.Array (e0 :: rest)) colorSpace rt =
          (.ok (false, colorSpace), rt)) ∧
      (∀ name t, e0.TryGetName = some name → TryConvertTo name = some t → t ≠ .Indexed →
        TryCreateFromObject unset (.Array (e0 :: rest)) colorSpace rt =
          (.ok (false, colorSpace),
            LogMessage .Warning ("Unsupported color space filter " ++ name) rt)) ∧
      (∀ name, e0.TryGetName = some name → TryConvertTo name = some .Indexed →
        rest.length < 3 →
        TryCreateFromObject unset (.Array (e0 :: rest)) colorSpace rt =
          InvalidIndexed colorSpace rt) := by
  have hlong : ∀ (e1 e2 e3 : PdfObject) (extra : List PdfObject),
      ¬ (e1 :: e2 :: e3 :: extra).length < 3 := by
    intro e1 e2 e3 extra
    simp only [List.length_cons]
    omega
  rcases rest with _ | ⟨e1, _ | ⟨e2, _ | ⟨e3, extra⟩⟩⟩
  · rw [TryCreateFromObject.eq_3 unset colorSpace rt e0 [] (by simp)]
    refine ⟨fun h => ?_, fun name h1 h2 => ?_, fun name t h1 h2 h3 => ?_, fun name h1 h2 _ => ?_⟩
    · simp only [h]
    · simp only [h1, h2]
    · cases t <;> simp_all
    · simp only [h1, h2]
  · rw [TryCreateFromObject.eq_3 unset colorSpace rt e0 [e1] (by simp)]
    refine ⟨fun h => ?_, fun name h1 h2 => ?_, fun name t h1 h2 h3 => ?_, fun name h1 h2 _ => ?_⟩
    · simp only [h]
    · simp only [h1, h2]
    · cases t <;> simp_all
    · simp only [h1, h2]
  · rw [TryCreateFromObject.eq_3 unset colorSpace rt e0 [e1, e2] (by simp)]
    refine ⟨fun h => ?_, fun name h1 h2 => ?_, fun name t h1 h2 h3 => ?_, fun name h1 h2 _ => ?_⟩
    · simp only [h]
    · simp only [h1, h2]
    · cases t <;> simp_all
    · simp only [h1, h2]
  · rw [TryCreateFromObject.eq_2]
    refine ⟨fun h => ?_, fun name h1 h2 => ?_, fun name t h1 h2 h3 => ?_,
      fun name h1 h2 h3 => absurd h3 (hlong e1 e2 e3 extra)⟩
    · simp only [h]
    · simp only [h1, h2]
    · cases t <;> simp_all


/-- C22: TryCreateFromObject returns false, raises nothing and leaves the output
parameter colorSpace as it was on: the empty array; an array whose element 0 is not a
name, or is a name that resolves to no type; an /Indexed array of fewer than 4
elements; an array whose element 0 resolves to a type other than Indexed; a name
other than /DeviceGray, /DeviceRGB, /DeviceCMYK; an object that is neither an array
nor a name. -/
theorem C22_malformed_description_fails_softly (unset : Int) (obj : PdfObject)
    (colorSpace : PdfColorSpaceFilterPtr) (rt : Runtime)
    (h : (obj = .Array [] ∨
      (∃ e0 rest, obj = .Array (e0 :: rest) ∧ e0.TryGetName = none) ∨
      (∃ e0 rest name, obj = .Array (e0 :: rest) ∧ e0.TryGetName = some name ∧
        TryConvertTo name = none) ∨
      (∃ e0 rest name, obj = .Array (e0 :: rest) ∧ e0.TryGetName = some name ∧
        TryConvertTo name = some .Indexed ∧ (e0 :: rest).length < 4) ∨
      (∃ e0 rest name t, obj = .Array (e0 :: rest) ∧ e0.TryGetName = some name ∧
        TryConvertTo name = some t ∧ t ≠ .Indexed) ∨
      (∃ name, obj = .Name name ∧ name ≠ "DeviceGray" ∧ name ≠ "DeviceRGB" ∧
        name ≠ "DeviceCMYK") ∨
      ((∀ items, obj ≠ .Array items) ∧ (∀ name, obj ≠ .Name name)))) :
    (TryCreateFromObject unset obj colorSpace rt).1 = .ok (false, colorSpace) := by
  rcases h with h | ⟨e0, rest, h, h1⟩ | ⟨e0, rest, name, h, h1, h2⟩ |
    ⟨e0, rest, name, h, h1, h2, h3⟩ | ⟨e0, rest, name, t, h, h1, h2, h3⟩ |
    ⟨name, h, h1, h2, h3⟩ | ⟨h1, h2⟩
  · subst h
    rfl
  · subst h
    rw [(TryCreateFromObject_Array_head unset e0 rest colorSpace rt).1 h1]
  · subst h
    rw [(TryCreateFromObject_Array_head unset e0 rest colorSpace rt).2.1 name h1 h2]
  · subst h
    have hlen : rest.length < 3 := by
      simp only [List.length_cons] at h3
      omega
    rw [(TryCreateFromObject_Array_head unset e0 rest colorSpace rt).2.2.2 name h1 h2 hlen]
    rfl
  · subst h
    rw [(TryCreateFromObject_Array_head unset e0 rest colorSpace rt).2.2.1 name t h1 h2 h3]
  · subst h
    simp only [TryCreateFromObject, PdfObject.TryGetName, TryConvertTo, h1, h2, h3, if_false]
    split_ifs <;> rfl
  · cases obj with
    | Array items => exact absurd rfl (h1 items)
    | Name name => exact absurd rfl (h2 name)
    | _ => rfl

/-- Witness of C22: the array [/Indexed /DeviceRGB 255], one element short. -/
theorem C22_malformed_description_fails_softly_witness :
    (PdfObject.Array [.Name "Indexed", .Name "DeviceRGB", .Number 255] = .Array [] ∨
      (∃ e0 rest, PdfObject.Array [.Name "Indexed", .Name "DeviceRGB", .Number 255] = .Array (e0 :: rest) ∧ e0.TryGetName = none) ∨
      (∃ e0 rest name, PdfObject.Array [.Name "Indexed", .Name "DeviceRGB", .Number 255] = .Array (e0 :: rest) ∧ e0.TryGetName = some name ∧
        TryConvertTo name = none) ∨
      (∃ e0 rest name, PdfObject.Array [.Name "Indexed", .Name "DeviceRGB", .Number 255] = .Array (e0 :: rest) ∧ e0.TryGetName = some name ∧
        TryConvertTo name = some .Indexed ∧ (e0 :: rest).length < 4) ∨
      (∃ e0 rest name t, PdfObject.Array [.Name "Indexed", .Name "DeviceRGB", .Number 255] = .Array (e0 :: rest) ∧ e0.TryGetName = some name ∧
        TryConvertTo name = some t ∧ t ≠ .Indexed) ∨
      (∃ name, PdfObject.Array [.Name "Indexed", .Name "DeviceRGB", .Number 255] = .Name name ∧ name ≠ "DeviceGray" ∧ name ≠ "DeviceRGB" ∧
        name ≠ "DeviceCMYK") ∨
      ((∀ items, PdfObject.Array [.Name "Indexed", .Name "DeviceRGB", .Number 255] ≠ .Array items) ∧ (∀ name, PdfObject.Array [.Name "Indexed", .Name "DeviceRGB", .Number 255] ≠ .Name name))) ∧
    (TryCreateFromObject 0 (.Array [.Name "Indexed", .Name "DeviceRGB", .Number 255]) none
      ⟨0, none, none, none, none, []⟩).1 = .ok (false, none) :=
  ⟨Or.inr (Or.inr (Or.inr (Or.inl ⟨.Name "Indexed", [.Name "DeviceRGB", .Number 255], "Indexed",
      rfl, rfl, rfl, by decide⟩))),
    C22_malformed_description_fails_softly 0
      (.Array [.Name "Indexed", .Name "DeviceRGB", .Number 255]) none
      ⟨0, none, none, none, none, []⟩
      (Or.inr (Or.inr (Or.inr (Or.inl ⟨.Name "Indexed", [.Name "DeviceRGB", .Number 255],
        "Indexed", rfl, rfl, rfl, by decide⟩))))⟩


/-- C23: for every array [/Indexed, /DeviceRGB, h, s] with an integer 0 <= h <= 255
that TryCreateFromObject accepts, s has a stream and GetExportObject of the filter
that was returned appends one new object, whose stream is all the bytes of s, to the
object list and returns [/Indexed, /DeviceRGB, h, reference to the new object]. -/
theorem C23_indexed_parse_then_export (dmul : Rat → Rat → Rat) (unset hival : Int)
    (e3 : PdfObject) (extra : List PdfObject) (colorSpace : PdfColorSpaceFilterPtr)
    (rt rt' : Runtime) (p : SharedPtr) (objects : PdfIndirectObjectList)
    (h0 : 0 ≤ hival) (h255 : hival ≤ 255)
    (hacc : TryCreateFromObject unset (.Array (.Name "Indexed" :: .Name "DeviceRGB" ::
      .Number hival :: e3 :: extra)) colorSpace rt = (.ok (true, some p), rt')) :
    ∃ bytes, e3.GetStream = some bytes ∧
      p.obj.GetExportObject dmul objects =
        (.ok (.Array [.Name "Indexed", .Name "DeviceRGB", .Number hival,
          .Reference (objects.length + 1) 0]),
          objects ++ [.Dictionary [] (some bytes)]) := by
  obtain ⟨base, rt1, stream, hrec, _, hstream, _, _, hp, _⟩ :=
    TryCreateFromObject_Indexed_true unset _ _ _ _ _ _ _ _ hacc
  rw [TryCreateFromObject_DeviceRGB] at hrec
  simp only [Prod.mk.injEq, Except.ok.injEq, true_and, Option.some.injEq] at hrec
  have hbase : base.obj = .DeviceRGB := by
    rw [← hrec.1, GetDeviceRGBInstace_obj]
  simp only [Option.some.injEq, PdfObject.TryGetNumber] at hp
  subst hp
  refine ⟨stream, hstream, ?_⟩
  have hmap : ((usub (uadd (toUnsigned hival) 1) 1 : Nat) : Int) = hival := by
    have hmod : hival % 4294967296 = hival := Int.emod_eq_of_lt h0 (by omega)
    unfold usub uadd toUnsigned UINT_SIZE
    rw [hmod]
    omega
  show (PdfColorSpaceFilter.Indexed base.addr base.obj (uadd (toUnsigned hival) 1)
    stream).GetExportObject dmul objects = _
  rw [Indexed_export_eq, hbase]
  simp only [PdfColorSpaceFilter.GetExportObject, hmap]

/-- Witness of C23: the array [/Indexed /DeviceRGB 0 s] with a stream of 5 bytes, two
more than the palette needs. -/
theorem C23_indexed_parse_then_export_witness :
    ((0 : Int) ≤ 0 ∧ (0 : Int) ≤ 255 ∧
      TryCreateFromObject 0 (.Array (.Name "Indexed" :: .Name "DeviceRGB" :: .Number 0 ::
        .Dictionary [] (some [9, 8, 7, 6, 5]) :: [])) none ⟨0, none, none, none, none, []⟩ =
        (.ok (true, some ⟨1, .Indexed 0 .DeviceRGB 1 [9, 8, 7, 6, 5]⟩),
          ⟨2, none, none, some 0, none, []⟩)) ∧
    ∃ bytes, (PdfObject.Dictionary [] (some [9, 8, 7, 6, 5])).GetStream = some bytes ∧
      (SharedPtr.mk 1 (.Indexed 0 .DeviceRGB 1 [9, 8, 7, 6, 5])).obj.GetExportObject
          (fun x y : Rat => x * y) [] =
        (.ok (.Array [.Name "Indexed", .Name "DeviceRGB", .Number 0,
          .Reference (([] : PdfIndirectObjectList).length + 1) 0]),
          [] ++ [.Dictionary [] (some bytes)]) :=
  ⟨⟨by decide, by decide, rfl⟩,
    C23_indexed_parse_then_export (fun x y : Rat => x * y) 0 0
      (.Dictionary [] (some [9, 8, 7, 6, 5])) [] none ⟨0, none, none, none, none, []⟩
      ⟨2, none, none, some 0, none, []⟩ ⟨1, .Indexed 0 .DeviceRGB 1 [9, 8, 7, 6, 5]⟩ []
      (by decide) (by decide) rfl⟩

/-- C24: for each of the three device filters, held as the shared instance of its
accessor, GetExportObject returns the bare name that resolves to the type of the
filter and leaves the object list as it was, and TryCreateFromObject on that name
returns true with this same instance, leaving the process state as it was. -/
theorem C24_device_export_then_parse (dmul : Rat → Rat → Rat) (unset : Int)
    (colorSpace : PdfColorSpaceFilterPtr) (rt : Runtime) (objects : PdfIndirectObjectList) :
    ((GetDeviceGrayInstace rt).1.obj.GetExportObject dmul objects =
        (.ok (.Name "DeviceGray"), objects) ∧
      TryConvertTo "DeviceGray" = some (GetDeviceGrayInstace rt).1.obj.GetType ∧
      (GetDeviceGrayInstace rt).1.obj.GetType = .DeviceGray ∧
      TryCreateFromObject unset (.Name "DeviceGray") colorSpace (GetDeviceGrayInstace rt).2 =
        (.ok (true, some (GetDeviceGrayInstace rt).1), (GetDeviceGrayInstace rt).2)) ∧
    ((GetDeviceRGBInstace rt).1.obj.GetExportObject dmul objects =
        (.ok (.Name "DeviceRGB"), objects) ∧
      TryConvertTo "DeviceRGB" = some (GetDeviceRGBInstace rt).1.obj.GetType ∧
      (GetDeviceRGBInstace rt).1.obj.GetType = .DeviceRGB ∧
      TryCreateFromObject unset (.Name "DeviceRGB") colorSpace (GetDeviceRGBInstace rt).2 =
        (.ok (true, some (GetDeviceRGBInstace rt).1), (GetDeviceRGBInstace rt).2)) ∧
    ((GetDeviceCMYKInstace rt).1.obj.GetExportObject dmul objects =
        (.ok (.Name "DeviceCMYK"), objects) ∧
      TryConvertTo "DeviceCMYK" = some (GetDeviceCMYKInstace rt).1.obj.GetType ∧
      (GetDeviceCMYKInstace rt).1.obj.GetType = .DeviceCMYK ∧
      TryCreateFromObject unset (.Name "DeviceCMYK") colorSpace (GetDeviceCMYKInstace rt).2 =
        (.ok (true, some (GetDeviceCMYKInstace rt).1), (GetDeviceCMYKInstace rt).2)) := by
  refine ⟨⟨?_, ?_, ?_, ?_⟩, ⟨?_, ?_, ?_, ?_⟩, ⟨?_, ?_, ?_, ?_⟩⟩
  · rw [GetDeviceGrayInstace_obj]
    rfl
  · rw [GetDeviceGrayInstace_obj]
    rfl
  · rw [GetDeviceGrayInstace_obj]
    rfl
  · rw [TryCreateFromObject_DeviceGray, GetDeviceGrayInstace_stable]
  · rw [GetDeviceRGBInstace_obj]
    rfl
  · rw [GetDeviceRGBInstace_obj]
    rfl
  · rw [GetDeviceRGBInstace_obj]
    rfl
  · rw [TryCreateFromObject_DeviceRGB, GetDeviceRGBInstace_stable]
  · rw [GetDeviceCMYKInstace_obj]
    rfl
  · rw [GetDeviceCMYKInstace_obj]
    rfl
  · rw [GetDeviceCMYKInstace_obj]
    rfl
  · rw [TryCreateFromObject_DeviceCMYK, GetDeviceCMYKInstace_stable]

/-- The size formula on `unsigned` is the sum reduced modulo 2^32, divided by 8. -/
theorem scanLineSize_mod (n width bpc : Nat) :
    usub (uadd (umul (umul n width) bpc) 8) 1 / 8 =
      (n * width * bpc + 7) % 4294967296 / 8 := by
  have hprod : umul (umul n width) bpc = n * width * bpc % 4294967296 := by
    unfold umul UINT_SIZE
    rw [Nat.mod_mul_mod]
  rw [hprod]
  unfold usub uadd UINT_SIZE
  omega

/-- C25: every Indexed filter that TryCreateFromObject returns, whatever the nesting
of /Indexed arrays in the object, has GetPixelFormat = RGB, and so has its base, the
filter the nested call returned; GetScanLineSize on it raises nothing and returns
(3*width*bitsPerComponent + 7) / 8 computed on 32-bit unsigned, that is the sum
modulo 2^32 divided by 8, and GetSourceScanLineSize returns width for every
bitsPerComponent. -/
theorem C25_factory_indexed_is_rgb (unset : Int) (obj : PdfObject)
    (colorSpace : PdfColorSpaceFilterPtr) (rt rt' : Runtime) (p : SharedPtr)
    (baseAddr mapSize : Nat) (base : PdfColorSpaceFilter) (lookup : charbuff)
    (width bpc : Nat)
    (h : TryCreateFromObject unset obj colorSpace rt = (.ok (true, some p), rt'))
    (hp : p.obj = .Indexed baseAddr base mapSize lookup) :
    p.obj.GetPixelFormat = .ok .RGB ∧
      base.GetPixelFormat = .ok .RGB ∧
      p.obj.GetScanLineSize width bpc = .ok (usub (uadd (umul (umul 3 width) bpc) 8) 1 / 8) ∧
      usub (uadd (umul (umul 3 width) bpc) 8) 1 / 8 =
        (3 * width * bpc + 7) % 4294967296 / 8 ∧
      p.obj.GetSourceScanLineSize width bpc = .ok width := by
  have hfmt : base.GetPixelFormat = .ok .RGB := by
    rcases TryCreateFromObject_true unset obj colorSpace (some p) rt rt' h with
      ⟨items, hobj⟩ | hdev | hdev | hdev
    · subst hobj
      obtain ⟨e1, e2, e3, extra, hshape⟩ := TryCreateFromObject_Array_true unset _ _ _ _ _ h
      subst hshape
      obtain ⟨b, rt1, stream, _, _, _, hb, _, hres, _⟩ :=
        TryCreateFromObject_Indexed_true unset _ _ _ _ _ _ _ _ h
      simp only [Option.some.injEq] at hres
      subst hres
      simp only [PdfColorSpaceFilter.Indexed.injEq] at hp
      obtain ⟨_, hbase, _, _⟩ := hp
      rw [← hbase]
      exact hb
    · simp only [Option.some.injEq] at hdev
      rw [hdev, GetDeviceGrayInstace_obj] at hp
      cases hp
    · simp only [Option.some.injEq] at hdev
      rw [hdev, GetDeviceRGBInstace_obj] at hp
      cases hp
    · simp only [Option.some.injEq] at hdev
      rw [hdev, GetDeviceCMYKInstace_obj] at hp
      cases hp
  rw [hp]
  refine ⟨hfmt, hfmt, ?_, scanLineSize_mod 3 width bpc, rfl⟩
  simp only [PdfColorSpaceFilter.GetScanLineSize, PdfColorSpaceFilterIndexed.GetScanLineSize,
    hfmt]

/-- Witness of C25: the nested array [/Indexed [/Indexed /DeviceRGB 0 s] 0 t], of
depth two, at width 5 and 8 bits per component: the scanline has 15 bytes and the
source scanline 5. -/
theorem C25_factory_indexed_is_rgb_witness :
    (TryCreateFromObject 0 (.Array [.Name "Indexed",
        .Array [.Name "Indexed", .Name "DeviceRGB", .Number 0, .Dictionary [] (some [1, 2, 3])],
        .Number 0, .Dictionary [] (some [4, 5, 6])]) none ⟨0, none, none, none, none, []⟩ =
        (.ok (true, some ⟨2, .Indexed 1 (.Indexed 0 .DeviceRGB 1 [1, 2, 3]) 1 [4, 5, 6]⟩),
          ⟨3, none, none, some 0, none, []⟩) ∧
      (SharedPtr.mk 2 (.Indexed 1 (.Indexed 0 .DeviceRGB 1 [1, 2, 3]) 1 [4, 5, 6])).obj =
        .Indexed 1 (.Indexed 0 .DeviceRGB 1 [1, 2, 3]) 1 [4, 5, 6]) ∧
    ((SharedPtr.mk 2 (.Indexed 1 (.Indexed 0 .DeviceRGB 1 [1, 2, 3]) 1
        [4, 5, 6])).obj.GetPixelFormat = .ok .RGB ∧
      (PdfColorSpaceFilter.Indexed 0 .DeviceRGB 1 [1, 2, 3]).GetPixelFormat = .ok .RGB ∧
      (SharedPtr.mk 2 (.Indexed 1 (.Indexed 0 .DeviceRGB 1 [1, 2, 3]) 1
        [4, 5, 6])).obj.GetScanLineSize 5 8 =
        .ok (usub (uadd (umul (umul 3 5) 8) 8) 1 / 8) ∧
      usub (uadd (umul (umul 3 5) 8) 8) 1 / 8 = (3 * 5 * 8 + 7) % 4294967296 / 8 ∧
      (SharedPtr.mk 2 (.Indexed 1 (.Indexed 0 .DeviceRGB 1 [1, 2, 3]) 1
        [4, 5, 6])).obj.GetSourceScanLineSize 5 8 = .ok 5) :=
  ⟨⟨rfl, rfl⟩,
    C25_factory_indexed_is_rgb 0 (.Array [.Name "Indexed",
      .Array [.Name "Indexed", .Name "DeviceRGB", .Number 0, .Dictionary [] (some [1, 2, 3])],
      .Number 0, .Dictionary [] (some [4, 5, 6])]) none ⟨0, none, none, none, none, []⟩
      ⟨3, none, none, some 0, none, []⟩
      ⟨2, .Indexed 1 (.Indexed 0 .DeviceRGB 1 [1, 2, 3]) 1 [4, 5, 6]⟩ 1 1
      (.Indexed 0 .DeviceRGB 1 [1, 2, 3]) [4, 5, 6] 5 8 rfl rfl⟩

end PoDoFo
